import Mathlib

/-!
Verification of the tabular import/export and reconciliation engine of the
day6-lyrics application, as implemented in `src/unnamed/part_000`
(functions `stripCell`, `normalizeHeader`, `idxOfAny`, `parseCSV`,
`trimLyricsTail`, `normalizeDateSlash`, `importCSV` with its inner helpers
`toYMD` / `fromExcelSerial` / `normalizeDateFromAny` / `getAlbumIndex` /
`getSongIndex`, and `exportCustom`).

The embedding is shallow: each TypeScript function is translated into an
executable Lean definition.  Machine-level concerns that cannot influence the
verified behaviour (DOM access, file readers, the XLSX byte encoder) are
outside the model; the import works on the parsed grid of string cells, the
export produces that grid, `today()` and the random `uid()` generator are
modelled as explicit parameters (a date string, a counter for fresh ids).
-/

namespace Day6

/-! ## Basic string helpers (JS semantics on explicit character lists) -/

/-- The byte-order mark `"﻿"` used by `stripCell` / `normalizeHeader`. -/
def bomChar : Char := Char.ofNat 0xFEFF

/-- JS `String.prototype.replace(pat, "")` with a plain-string pattern removes
only the first occurrence; for the single-character BOM pattern this is the
removal of the first occurrence of that character. -/
def removeFirst (c : Char) : List Char → List Char
  | [] => []
  | x :: xs => if x = c then xs else x :: removeFirst c xs

/-- JS `String.prototype.trim`, modelled on the whitespace characters that can
occur in this application's data. -/
def jsTrimList (cs : List Char) : List Char :=
  ((cs.dropWhile Char.isWhitespace).reverse.dropWhile Char.isWhitespace).reverse

/-- JS `s.trim()`. -/
def jsTrim (s : String) : String := String.mk (jsTrimList s.toList)

/-- `stripCell(s) = (s || "").replace(BOM, "").trim()`. -/
def stripCell (s : String) : String :=
  String.mk (jsTrimList (removeFirst bomChar s.toList))

/-- JS `s.toLowerCase()` (ASCII letters; CJK/Hangul are fixed points, as in JS). -/
def lowerStr (s : String) : String := String.mk (s.toList.map Char.toLower)

/-- The global regex replace `/optional|可選|選填/g → ""`: the scan is left to
right, non-overlapping, and the alternatives are tried in order at each
position. -/
def stripOptWords : List Char → List Char
  | 'o' :: 'p' :: 't' :: 'i' :: 'o' :: 'n' :: 'a' :: 'l' :: rest => stripOptWords rest
  | '可' :: '選' :: rest => stripOptWords rest
  | '選' :: '填' :: rest => stripOptWords rest
  | c :: rest => c :: stripOptWords rest
  | [] => []

/-- The punctuation class stripped by `normalizeHeader`:
`/[\s_\-（）()]/g`. -/
def isHeaderPunct (c : Char) : Bool :=
  c.isWhitespace || c = '_' || c = '-' || c = '（' || c = '）' || c = '(' || c = ')'

/-- `normalizeHeader`: drop the BOM, case-fold, delete the "optional" marker
words, then delete whitespace/underscore/hyphen/parentheses. -/
def normalizeHeader (s : String) : String :=
  String.mk ((stripOptWords ((removeFirst bomChar s.toList).map Char.toLower)).filter
    (fun c => !isHeaderPunct c))

/-- JS `hay.includes(needle)` on character lists. -/
def hasSub (hay needle : List Char) : Bool :=
  match hay with
  | [] => needle.isEmpty
  | _ :: t => needle.isPrefixOf hay || hasSub t needle

/-! ## Header resolution: `idxOfAny` and the alias tables -/

/-- One tier of `idxOfAny`: for each alias in order, scan the normalized
header row for the first column accepted by `f`; the first alias that hits
wins. -/
def tierIdx (H : List String) (aliases : List String) (f : String → String → Bool) :
    Option Nat :=
  match aliases with
  | [] => none
  | a :: rest =>
    match H.findIdx? (fun h => f h a) with
    | some i => some i
    | none => tierIdx H rest f

/-- Tier 1 of `idxOfAny`: exact match `H.indexOf(a)`. -/
def exactTier (H aliases : List String) : Option Nat :=
  tierIdx H aliases (fun h a => h == a)

/-- Tier 2 of `idxOfAny`: `h.startsWith(a)`. -/
def startTier (H aliases : List String) : Option Nat :=
  tierIdx H aliases (fun h a => a.toList.isPrefixOf h.toList)

/-- Tier 3 of `idxOfAny`: `h.includes(a)`. -/
def subTier (H aliases : List String) : Option Nat :=
  tierIdx H aliases (fun h a => hasSub h.toList a.toList)

/-- `idxOfAny(H, aliases)`: three tiers, each tried to exhaustion before the
next; `-1` is modelled as `none`. -/
def idxOfAny (H : List String) (aliases : List String) : Option Nat :=
  match exactTier H aliases with
  | some i => some i
  | none =>
    match startTier H aliases with
    | some i => some i
    | none => subTier H aliases

/-! ## Date handling -/

/-- Decimal value of a digit list (JS `parseInt` on an all-digit string). -/
def natOfDigits (ds : List Char) : Nat :=
  ds.foldl (fun n c => 10 * n + (c.toNat - 48)) 0

/-- Proleptic-Gregorian civil date from a count of days since 1970-01-01 UTC;
this is exactly what `new Date(ms).getUTC{FullYear,Month,Date}()` computes. -/
def civilFromDays (z0 : Int) : Int × Nat × Nat :=
  let z := z0 + 719468
  let era := z.fdiv 146097
  let doe := (z - era * 146097).toNat
  let yoe := (doe - doe / 1460 + doe / 36524 - doe / 146096) / 365
  let doy := doe - (365 * yoe + yoe / 4 - yoe / 100)
  let mp := (5 * doy + 2) / 153
  let d := doy - (153 * mp + 2) / 5 + 1
  let m := if mp < 10 then mp + 3 else mp - 9
  let y := (yoe : Int) + era * 400 + (if m ≤ 2 then 1 else 0)
  (y, m, d)

/-- `toYMD(fromExcelSerial(n))`: the spreadsheet epoch `Date.UTC(1899,11,30)`
lies 25569 days before 1970-01-01, and `toYMD` prints `y/m/d` without
leading zeros. -/
def serialToYMD (n : Nat) : String :=
  let c := civilFromDays ((n : Int) - 25569)
  toString c.1 ++ "/" ++ toString c.2.1 ++ "/" ++ toString c.2.2

/-- The regex `/^\d{4,5}(\.\d+)?$/` of `normalizeDateFromAny`. -/
def serialPat (s : String) : Bool :=
  let cs := s.toList
  let ds := cs.takeWhile Char.isDigit
  let rest := cs.dropWhile Char.isDigit
  (ds.length == 4 || ds.length == 5) &&
    (rest.isEmpty ||
      (rest.headD ' ' == '.' && !(rest.drop 1).isEmpty && (rest.drop 1).all Char.isDigit))

/-- Attempt to match `(\d{4})\D+(\d{1,2})\D+(\d{1,2})` at the very start of
`cs`, with the backtracking behaviour of the JS regex engine. -/
def matchYMDHere (cs : List Char) : Option (Nat × Nat × Nat) :=
  match cs with
  | c1 :: c2 :: c3 :: c4 :: rest =>
    if c1.isDigit && c2.isDigit && c3.isDigit && c4.isDigit then
      let nd1 := rest.takeWhile (fun c => !c.isDigit)
      let r2 := rest.dropWhile (fun c => !c.isDigit)
      if nd1.isEmpty then none
      else
        let dr2 := r2.takeWhile Char.isDigit
        if dr2.length = 0 || dr2.length ≥ 3 then none
        else
          let r3 := r2.drop dr2.length
          if r3.isEmpty then none
          else
            let r4 := r3.dropWhile (fun c => !c.isDigit)
            let dr4 := r4.takeWhile Char.isDigit
            if dr4.isEmpty then none
            else
              some (natOfDigits [c1, c2, c3, c4], natOfDigits dr2,
                natOfDigits (dr4.take 2))
    else none
  | _ => none

/-- Leftmost match of `(\d{4})\D+(\d{1,2})\D+(\d{1,2})` (JS `String.match`). -/
def findYMD : List Char → Option (Nat × Nat × Nat)
  | [] => none
  | c :: rest =>
    match matchYMDHere (c :: rest) with
    | some r => some r
    | none => findYMD rest

/-- `normalizeDateSlash`: reformat the first `YYYY … M … D` pattern found in
the text as `Y/M/D` without leading zeros; unparseable text is returned
unchanged and a zero component rejects the match. -/
def normalizeDateSlash (input : String) : String :=
  let t := jsTrim input
  if t = "" then ""
  else
    match findYMD t.toList with
    | none => t
    | some (y, mo, d) =>
      if y = 0 || mo = 0 || d = 0 then t
      else toString y ++ "/" ++ toString mo ++ "/" ++ toString d

/-- `normalizeDateFromAny` on a string cell (the only cell shape produced by
the text-import path): a string matching `^\d{4,5}(\.\d+)?$` is converted via
the spreadsheet epoch (no range check on this path), anything else is handed
to `normalizeDateSlash`. -/
def normalizeDateFromAny (s : String) : String :=
  let t := jsTrim s
  if serialPat t then serialToYMD (natOfDigits (t.toList.takeWhile Char.isDigit))
  else normalizeDateSlash t

/-- `normalizeDateFromAny` on a numeric cell with integral value: only here is
the `20000 < v < 60000` plausibility range checked before the epoch
conversion. -/
def normalizeDateFromAnyNum (v : Int) : String :=
  if 20000 < v ∧ v < 60000 then serialToYMD v.toNat
  else normalizeDateFromAny (toString v)

/-! ## CSV parsing (`parseCSV`) -/

/-- The character loop of `parseCSV`: `inQ` is the `inQuotes` flag, `field`
the field accumulator, `row` the current row accumulator. -/
def parseCSVChars : List Char → Bool → String → List String → List (List String)
  | [], _, field, row => [row ++ [field]]
  | '"' :: '"' :: rest, true, field, row => parseCSVChars rest true (field.push '"') row
  | '"' :: rest, true, field, row => parseCSVChars rest false field row
  | c :: rest, true, field, row => parseCSVChars rest true (field.push c) row
  | '"' :: rest, false, field, row => parseCSVChars rest true field row
  | ',' :: rest, false, field, row => parseCSVChars rest false "" (row ++ [field])
  | '\r' :: '\n' :: rest, false, field, row => (row ++ [field]) :: parseCSVChars rest false "" []
  | '\r' :: rest, false, field, row => (row ++ [field]) :: parseCSVChars rest false "" []
  | '\n' :: rest, false, field, row => (row ++ [field]) :: parseCSVChars rest false "" []
  | c :: rest, false, field, row => parseCSVChars rest false (field.push c) row

/-- A row whose cells are all the empty string. -/
def rowAllEmpty (r : List String) : Bool := r.all (· == "")

/-- The trailing `while (...) rows.pop()` loop of `parseCSV`. -/
def dropTrailingBlankRows (rows : List (List String)) : List (List String)  :=
  (rows.reverse.dropWhile rowAllEmpty).reverse

/-- `parseCSV`: RFC4180-ish text to grid, then trailing all-empty rows
removed. -/
def parseCSV (text : String) : List (List String) :=
  dropTrailingBlankRows (parseCSVChars text.toList false "" [])

/-! ## Data model (`LyricLine`, `VocabItem`, `GrammarPoint`, `Song`, `Album`)

Optional TS string fields default to `""` exactly as the code reads them
(`s.lyricist || ""` …); `id` strings produced by `uid()` are modelled as
numbers drawn from an explicit counter. -/

structure LyricLine where
  id : Nat
  kor : String
  zh : String
deriving Repr, DecidableEq

structure VocabItem where
  id : Nat
  word : String
  zh : String
deriving Repr, DecidableEq

structure GrammarPoint where
  id : Nat
  pattern : String
  explain : String
  exampleStr : String
deriving Repr, DecidableEq

structure Song where
  id : Nat
  title : String
  releaseDate : String
  lyricist : String
  composer : String
  lyrics : List LyricLine
  vocab : List VocabItem
  grammar : List GrammarPoint
deriving Repr, DecidableEq

structure Album where
  id : Nat
  title : String
  releaseDate : String
  cover : String
  songs : List Song
deriving Repr, DecidableEq

/-- `trimLyricsTail`: drop trailing rows where both texts trim to empty. -/
def trimLyricsTailL (rows : List LyricLine) : List LyricLine :=
  (rows.reverse.dropWhile (fun l => jsTrim l.kor == "" && jsTrim l.zh == "")).reverse

/-! ## Import state

During `importCSV` the code attaches transient buffer fields
(`__importLyrics`, `__touchedLyrics`, …) to the song objects of the cloned
catalog; `SongB`/`AlbumB` are songs/albums carrying those fields. -/

structure SongB where
  id : Nat
  title : String
  releaseDate : String
  lyricist : String
  composer : String
  lyrics : List LyricLine
  vocab : List VocabItem
  grammar : List GrammarPoint
  impLyrics : Option (List (String × String))
  impVocab : Option (List (String × String))
  impGrammar : Option (List (String × String × String))
  touchedLyrics : Bool
  touchedVocab : Bool
  touchedGrammar : Bool
deriving Repr, DecidableEq

structure AlbumB where
  id : Nat
  title : String
  releaseDate : String
  cover : String
  songs : List SongB
deriving Repr, DecidableEq

def Song.toB (s : Song) : SongB :=
  { id := s.id, title := s.title, releaseDate := s.releaseDate,
    lyricist := s.lyricist, composer := s.composer,
    lyrics := s.lyrics, vocab := s.vocab, grammar := s.grammar,
    impLyrics := none, impVocab := none, impGrammar := none,
    touchedLyrics := false, touchedVocab := false, touchedGrammar := false }

def Album.toB (a : Album) : AlbumB :=
  { id := a.id, title := a.title, releaseDate := a.releaseDate,
    cover := a.cover, songs := a.songs.map Song.toB }

/-- The per-kind row counters reported by `importCSV`. -/
structure Stat where
  lyric : Nat
  vocab : Nat
  grammar : Nat
  skipped : Nat
deriving Repr, DecidableEq

/-- The whole mutable state of one import pass: the cloned album list, the
fresh-id counter standing for `uid()`, and the counters. -/
structure ImpState where
  albums : List AlbumB
  fresh : Nat
  stat : Stat
deriving Repr, DecidableEq

/-- The resolved column map `col` (a `-1` entry is `none`). -/
structure Cols where
  albumTitle : Option Nat
  cover : Option Nat
  songTitle : Option Nat
  releaseDate : Option Nat
  lyricist : Option Nat
  composer : Option Nat
  kor : Option Nat
  zhLyric : Option Nat
  word : Option Nat
  zhWord : Option Nat
  pattern : Option Nat
  explain : Option Nat
  exampleStr : Option Nat
deriving Repr, DecidableEq

/-- The alias tables of `importCSV` (verbatim from the source). -/
def resolveCols (H : List String) : Cols :=
  { albumTitle := idxOfAny H ["專輯名稱", "專輯", "專輯名", "albumtitle", "album"],
    cover := idxOfAny H ["專輯封面圖連結", "封面", "封面圖", "圖片", "cover"],
    songTitle := idxOfAny H ["歌曲名稱", "歌曲", "歌名", "songtitle", "song", "title"],
    releaseDate := idxOfAny H ["歌曲發行日(yyyy/m/d)", "歌曲發行日(yyyy-mm-dd)",
      "歌曲發行日yyyy-mm-dd", "歌曲發行日", "發行日", "發布日", "發布日期", "releasedate", "date"],
    lyricist := idxOfAny H ["作詞", "詞作者", "lyricist"],
    composer := idxOfAny H ["作曲", "曲作者", "composer"],
    kor := idxOfAny H ["韓文歌詞", "kor", "korean", "kr", "han", "韓文"],
    zhLyric := idxOfAny H ["中文歌詞", "zh_lyric", "zh(lyric)"],
    word := idxOfAny H ["韓文單字", "單字", "word"],
    zhWord := idxOfAny H ["中文單字", "單字中文", "釋義", "zh_word"],
    pattern := idxOfAny H ["韓文文法", "文法", "pattern"],
    explain := idxOfAny H ["文法說明", "說明", "explain"],
    exampleStr := idxOfAny H ["文法例句", "例句", "example"] }

/-- JS `r[i]` with `undefined` degrading to `""` under `stripCell`/`String`. -/
def getCell (r : List String) (i : Nat) : String := (r.get? i).getD ""

/-- `has(col.x) ? stripCell(r[col.x]) : ""`. -/
def cellAt (r : List String) (oi : Option Nat) : String :=
  match oi with
  | some i => stripCell (getCell r i)
  | none => ""

/-- `has(col.releaseDate) ? r[col.releaseDate] : ""` (note: not stripped). -/
def rawCellAt (r : List String) (oi : Option Nat) : String :=
  match oi with
  | some i => getCell r i
  | none => ""

/-- Update a list element in place; out-of-range indices leave the list
unchanged (the code only ever uses in-range indices). -/
def modifyAt {α : Type} (l : List α) (i : Nat) (f : α → α) : List α :=
  match l.get? i with
  | some x => l.set i (f x)
  | none => l

/-- The album literal pushed by `getAlbumIndex` when no title matches:
`{ id: uid(), title, releaseDate: today(), cover: "", songs: [] }`. -/
def newAlbumB (id : Nat) (title today : String) : AlbumB :=
  { id := id, title := title, releaseDate := today, cover := "", songs := [] }

/-- The song literal pushed by `getSongIndex` when no title matches:
`{ id: uid(), title, releaseDate: today(), lyricist: "", composer: "", lyrics: [], vocab: [], grammar: [] }`. -/
def newSongB (id : Nat) (title today : String) : SongB :=
  { id := id, title := title, releaseDate := today, lyricist := "",
    composer := "", lyrics := [], vocab := [], grammar := [],
    impLyrics := none, impVocab := none, impGrammar := none,
    touchedLyrics := false, touchedVocab := false, touchedGrammar := false }

/-- `getAlbumIndex`: find by case-folded title or append a fresh album with
`releaseDate: today(), cover: ""`. -/
def getAlbumIndex (today : String) (st : ImpState) (title : String) : ImpState × Nat :=
  match st.albums.findIdx? (fun a => lowerStr a.title == lowerStr title) with
  | some ai => (st, ai)
  | none =>
    ({ st with
        albums := st.albums ++ [newAlbumB st.fresh title today],
        fresh := st.fresh + 1 },
      st.albums.length)

/-- `getSongIndex`: find by case-folded title within album `ai` or append a
fresh song with `releaseDate: today()` and empty fields/collections. -/
def getSongIndex (today : String) (st : ImpState) (ai : Nat) (title : String) :
    ImpState × Nat :=
  match (((st.albums.get? ai).map AlbumB.songs).getD []).findIdx?
      (fun s => lowerStr s.title == lowerStr title) with
  | some si => (st, si)
  | none =>
    ({ st with
        albums := modifyAt st.albums ai (fun a =>
          { a with songs := a.songs ++ [newSongB st.fresh title today] }),
        fresh := st.fresh + 1 },
      (((st.albums.get? ai).map AlbumB.songs).getD []).length)

/-- `if (!song.__importX) song.__importX = []; song.__importX.push(v)`. -/
def pushOpt {α : Type} (buf : Option (List α)) (x : α) : Option (List α) :=
  some (buf.getD [] ++ [x])

/-- The metadata block of the row loop:
`if (date) song.releaseDate = date; if (lyr) ...; if (comp) ...` — each field
overwritten only by a non-empty value. -/
def applyMeta (s : SongB) (date lyr comp : String) : SongB :=
  let s1 := if date ≠ "" then { s with releaseDate := date } else s
  let s2 := if lyr ≠ "" then { s1 with lyricist := lyr } else s1
  if comp ≠ "" then { s2 with composer := comp } else s2

/-- `if (cov) next[ai].cover = cov`. -/
def applyCover (a : AlbumB) (cov : String) : AlbumB :=
  if cov ≠ "" then { a with cover := cov } else a

/-- `isLyricRow = !!(korVal || zhLyVal)`. -/
def isLyricRowB (korVal zhLyVal : String) : Bool := korVal ≠ "" || zhLyVal ≠ ""

/-- `isGrammarRow = !!pattVal`. -/
def isGrammarRowB (pattVal : String) : Bool := pattVal ≠ ""

/-- `isVocabRow = !!(wordVal || zhWdVal) && !isGrammarRow`. -/
def isVocabRowB (wordVal zhWdVal pattVal : String) : Bool :=
  (wordVal ≠ "" || zhWdVal ≠ "") && !isGrammarRowB pattVal

/-- The payload/buffer block applied to the matched song. -/
def songRowUpdate (s : SongB) (date lyr comp korVal zhLyVal wordVal zhWdVal
    pattVal explVal exmpVal : String) : SongB :=
  let s0 := applyMeta s date lyr comp
  let s1 := if isLyricRowB korVal zhLyVal then
      { s0 with impLyrics := pushOpt s0.impLyrics (korVal, zhLyVal), touchedLyrics := true }
    else s0
  let s2 := if isVocabRowB wordVal zhWdVal pattVal then
      { s1 with impVocab := pushOpt s1.impVocab (wordVal, zhWdVal), touchedVocab := true }
    else s1
  if isGrammarRowB pattVal then
    { s2 with
      impGrammar := pushOpt s2.impGrammar (pattVal, explVal, exmpVal),
      touchedGrammar := true }
  else s2

/-- One iteration of the row loop of `importCSV`. -/
def processRow (col : Cols) (today : String) (st : ImpState) (r : List String) :
    ImpState :=
  let aTitle := cellAt r col.albumTitle
  let sTitle := cellAt r col.songTitle
  if aTitle = "" || sTitle = "" then
    { st with stat := { st.stat with skipped := st.stat.skipped + 1 } }
  else
    let p1 := getAlbumIndex today st aTitle
    let p2 := getSongIndex today p1.1 p1.2 sTitle
    let st2 := p2.1
    let ai := p1.2
    let si := p2.2
    let date := normalizeDateFromAny (rawCellAt r col.releaseDate)
    let lyr := cellAt r col.lyricist
    let comp := cellAt r col.composer
    let cov := cellAt r col.cover
    let korVal := cellAt r col.kor
    let zhLyVal := cellAt r col.zhLyric
    let wordVal := cellAt r col.word
    let zhWdVal := cellAt r col.zhWord
    let pattVal := cellAt r col.pattern
    let explVal := cellAt r col.explain
    let exmpVal := cellAt r col.exampleStr
    let isL := isLyricRowB korVal zhLyVal
    let isG := isGrammarRowB pattVal
    let isV := isVocabRowB wordVal zhWdVal pattVal
    let st3 := { st2 with albums := modifyAt st2.albums ai (fun a =>
      applyCover { a with songs := modifyAt a.songs si (fun s =>
        songRowUpdate s date lyr comp korVal zhLyVal wordVal zhWdVal
          pattVal explVal exmpVal) } cov) }
    { st3 with stat :=
      { lyric := st3.stat.lyric + (if isL then 1 else 0),
        vocab := st3.stat.vocab + (if isV then 1 else 0),
        grammar := st3.stat.grammar + (if isG then 1 else 0),
        skipped := st3.stat.skipped + (if !isL && !isV && !isG then 1 else 0) } }

/-! ## Commit phase of `importCSV` -/

/-- `if (s.__touchedLyrics && s.__importLyrics) s.lyrics = trimLyricsTail(
s.__importLyrics.map(x => ({id: uid(), ...x})))`. -/
def commitLyr (fresh : Nat) (s : SongB) : List LyricLine × Nat :=
  match s.touchedLyrics, s.impLyrics with
  | true, some buf =>
    (trimLyricsTailL (buf.enum.map (fun p => ⟨fresh + p.1, p.2.1, p.2.2⟩)),
      fresh + buf.length)
  | _, _ => (s.lyrics, fresh)

/-- `if (s.__touchedVocab && s.__importVocab) s.vocab = s.__importVocab.map(...)`. -/
def commitVoc (fresh : Nat) (s : SongB) : List VocabItem × Nat :=
  match s.touchedVocab, s.impVocab with
  | true, some buf =>
    (buf.enum.map (fun p => ⟨fresh + p.1, p.2.1, p.2.2⟩), fresh + buf.length)
  | _, _ => (s.vocab, fresh)

/-- `if (s.__touchedGrammar && s.__importGrammar) s.grammar = s.__importGrammar.map(...)`. -/
def commitGra (fresh : Nat) (s : SongB) : List GrammarPoint × Nat :=
  match s.touchedGrammar, s.impGrammar with
  | true, some buf =>
    (buf.enum.map (fun p => ⟨fresh + p.1, p.2.1, p.2.2.1, p.2.2.2⟩), fresh + buf.length)
  | _, _ => (s.grammar, fresh)

/-- Commit one song: each collection whose buffer was touched is replaced by
the buffered rows (lyrics additionally `trimLyricsTail`-trimmed after the
per-line `uid()` assignment); untouched collections are kept. -/
def commitSong (fresh : Nat) (s : SongB) : Song × Nat :=
  ({ id := s.id, title := s.title, releaseDate := s.releaseDate,
     lyricist := s.lyricist, composer := s.composer,
     lyrics := (commitLyr fresh s).1, vocab := (commitVoc (commitLyr fresh s).2 s).1,
     grammar := (commitGra (commitVoc (commitLyr fresh s).2 s).2 s).1 },
   (commitGra (commitVoc (commitLyr fresh s).2 s).2 s).2)

def commitSongs (fresh : Nat) : List SongB → List Song × Nat
  | [] => ([], fresh)
  | s :: rest =>
    let p := commitSong fresh s
    let q := commitSongs p.2 rest
    (p.1 :: q.1, q.2)

def commitAlbums (fresh : Nat) : List AlbumB → List Album × Nat
  | [] => ([], fresh)
  | a :: rest =>
    let p := commitSongs fresh a.songs
    let q := commitAlbums p.2 rest
    ({ id := a.id, title := a.title, releaseDate := a.releaseDate,
       cover := a.cover, songs := p.1 } :: q.1, q.2)

/-! ## The import entry point on a parsed grid -/

/-- Header resolution step of `importCSV`:
`H = rows[0].map(stripCell).map(normalizeHeader)` fed to the alias tables. -/
def importCols (rows : List (List String)) : Cols :=
  resolveCols (((rows.headD []).map stripCell).map normalizeHeader)

/-- The state at the start of the row loop: the cloned catalog with empty
buffers, the id seed, and zeroed counters. -/
def importStart (fresh : Nat) (albums : List Album) : ImpState :=
  { albums := albums.map Album.toB, fresh := fresh,
    stat := { lyric := 0, vocab := 0, grammar := 0, skipped := 0 } }

/-- The state after the row loop ran over every body row. -/
def importFold (today : String) (fresh : Nat) (rows : List (List String))
    (albums : List Album) : ImpState :=
  (rows.drop 1).foldl (processRow (importCols rows) today) (importStart fresh albums)

/-- `importCSV` after parsing, acting on the album list of the catalog:
header resolution, the required-column check, the row loop, and the commit
phase.  `today` stands for `today()` and `fresh` seeds the `uid()` ids. -/
def importGrid (today : String) (fresh : Nat) (rows : List (List String))
    (albums : List Album) : Except String (List Album × Stat) :=
  if rows.isEmpty then .error "找不到資料列"
  else
    let col := importCols rows
    if col.albumTitle.isNone || col.songTitle.isNone then
      .error "欄位缺少「專輯名稱 / 歌曲名稱」，請使用統一範本 .xlsx 或 .txt"
    else
      let st1 := importFold today fresh rows albums
      .ok ((commitAlbums st1.fresh st1.albums).1, st1.stat)

/-- The resulting album list of an import, when it succeeded. -/
def importAlbums (today : String) (fresh : Nat) (rows : List (List String))
    (albums : List Album) : Option (List Album) :=
  (importGrid today fresh rows albums).toOption.map Prod.fst

/-- The result counters of an import, when it succeeded. -/
def importStats (today : String) (fresh : Nat) (rows : List (List String))
    (albums : List Album) : Option Stat :=
  (importGrid today fresh rows albums).toOption.map Prod.snd

/-! ## Export (`exportCustom`) -/

/-- The canonical export fields, in `EXPORT_FIELD_LABEL` declaration order. -/
inductive EField where
  | albumTitle | cover | songTitle | releaseDate | lyricist | composer
  | kor | zh | word | zhWord | pattern | explain | exampleStr
deriving Repr, DecidableEq

/-- `EXPORT_FIELD_LABEL`. -/
def exportFieldLabel : EField → String
  | .albumTitle => "專輯名稱(必填)"
  | .cover => "專輯封面圖連結"
  | .songTitle => "歌曲名稱(必填)"
  | .releaseDate => "歌曲發行日(YYYY/M/D)"
  | .lyricist => "作詞"
  | .composer => "作曲"
  | .kor => "韓文歌詞"
  | .zh => "中文歌詞"
  | .word => "韓文單字"
  | .zhWord => "中文單字"
  | .pattern => "韓文文法"
  | .explain => "文法說明"
  | .exampleStr => "文法例句"

/-- JS `x || y` on strings. -/
def jsOr (x y : String) : String := if x = "" then y else x

/-- The metadata cells shared by every exported row of a song. -/
def metaCell (a : Album) (s : Song) : EField → String
  | .albumTitle => a.title
  | .cover => a.cover
  | .songTitle => s.title
  | .releaseDate => normalizeDateSlash (jsOr s.releaseDate (jsOr a.releaseDate ""))
  | .lyricist => s.lyricist
  | .composer => s.composer
  | _ => ""

def lyricRowCell (a : Album) (s : Song) (l : LyricLine) : EField → String
  | .kor => l.kor
  | .zh => l.zh
  | f => metaCell a s f

def vocabRowCell (a : Album) (s : Song) (v : VocabItem) : EField → String
  | .word => v.word
  | .zhWord => v.zh
  | f => metaCell a s f

def grammarRowCell (a : Album) (s : Song) (g : GrammarPoint) : EField → String
  | .pattern => g.pattern
  | .explain => g.explain
  | .exampleStr => g.exampleStr
  | f => metaCell a s f

/-- The rows `exportCustom` emits for one song: one per lyric line, then one
per vocab item, then one per grammar point, and a single metadata-only row
for songs whose three collections are all empty. -/
def exportSongRows (cols : List EField) (a : Album) (s : Song) : List (List String) :=
  (s.lyrics.map (fun l => cols.map (lyricRowCell a s l))) ++
  (s.vocab.map (fun v => cols.map (vocabRowCell a s v))) ++
  (s.grammar.map (fun g => cols.map (grammarRowCell a s g))) ++
  (if s.lyrics.isEmpty && s.vocab.isEmpty && s.grammar.isEmpty then
    [cols.map (metaCell a s)] else [])

/-- `exportCustom(cols)`: the label header row followed by the fan-out of
every album's songs, in catalog order. -/
def exportCustom (cols : List EField) (albums : List Album) : List (List String) :=
  (cols.map exportFieldLabel) ::
    (albums.map (fun a => (a.songs.map (exportSongRows cols a)).flatten)).flatten

/-- The field order produced by the export dialog's "select all" action:
the two required fields first, then the remaining labels in declaration
order. -/
def allExportCols : List EField :=
  [.albumTitle, .songTitle, .cover, .releaseDate, .lyricist, .composer,
   .kor, .zh, .word, .zhWord, .pattern, .explain, .exampleStr]

/-! ## Round-trip support definitions -/

/-- Erase the opaque `uid()`-generated id of a lyric line. -/
def eraseLine (l : LyricLine) : LyricLine := { l with id := 0 }

/-- Erase the opaque id of a vocab item. -/
def eraseVocab (v : VocabItem) : VocabItem := { v with id := 0 }

/-- Erase the opaque id of a grammar point. -/
def eraseGrammar (g : GrammarPoint) : GrammarPoint := { g with id := 0 }

/-- Erase all ids of a song, recursively. -/
def eraseSongIds (s : Song) : Song :=
  { s with
    id := 0,
    lyrics := s.lyrics.map eraseLine,
    vocab := s.vocab.map eraseVocab,
    grammar := s.grammar.map eraseGrammar }

/-- Erase all ids of an album, recursively. -/
def eraseAlbumIds (a : Album) : Album :=
  { a with id := 0, songs := a.songs.map eraseSongIds }

/-- Erase all ids of a catalog: two catalogs are "equal up to id values" iff
their erasures are equal. -/
def eraseIds (c : List Album) : List Album := c.map eraseAlbumIds

/-- The column map the importer resolves from the export header produced by
`allExportCols` (each label resolves to the column it was emitted in). -/
def colsAll : Cols :=
  { albumTitle := some 0, cover := some 2, songTitle := some 1, releaseDate := some 3,
    lyricist := some 4, composer := some 5, kor := some 6, zhLyric := some 7,
    word := some 8, zhWord := some 9, pattern := some 10, explain := some 11,
    exampleStr := some 12 }

/-- The net effect of one row of the row loop on the song it targets. -/
def rowEffect (col : Cols) (r : List String) (sb : SongB) : SongB :=
  songRowUpdate sb (normalizeDateFromAny (rawCellAt r col.releaseDate))
    (cellAt r col.lyricist) (cellAt r col.composer) (cellAt r col.kor)
    (cellAt r col.zhLyric) (cellAt r col.word) (cellAt r col.zhWord)
    (cellAt r col.pattern) (cellAt r col.explain) (cellAt r col.exampleStr)

/-- A string unchanged by `stripCell` (no surrounding whitespace, no BOM). -/
def trimStable (s : String) : Prop := stripCell s = s

/-- Round-trip well-formedness of a lyric line: texts trim-stable and not
both empty (a fully blank pair exports as a blank row, which the importer
skips). -/
def wfLine (l : LyricLine) : Prop :=
  trimStable l.kor ∧ trimStable l.zh ∧ (l.kor ≠ "" ∨ l.zh ≠ "")

/-- Round-trip well-formedness of a vocab item. -/
def wfVocab (v : VocabItem) : Prop :=
  trimStable v.word ∧ trimStable v.zh ∧ (v.word ≠ "" ∨ v.zh ≠ "")

/-- Round-trip well-formedness of a grammar point: a pattern is required,
since the importer keys the grammar classification on it. -/
def wfGrammar (g : GrammarPoint) : Prop :=
  trimStable g.pattern ∧ trimStable g.explain ∧ trimStable g.exampleStr ∧ g.pattern ≠ ""

/-- Round-trip well-formedness of a song within its album: title usable as
a key and the text fields trim-stable; the release date is unconstrained. -/
def wfSong (a : Album) (s : Song) : Prop :=
  trimStable s.title ∧ s.title ≠ "" ∧ trimStable s.lyricist ∧ trimStable s.composer ∧
  (∀ l ∈ s.lyrics, wfLine l) ∧ (∀ v ∈ s.vocab, wfVocab v) ∧
  (∀ g ∈ s.grammar, wfGrammar g)

/-- Round-trip well-formedness of an album: title usable as a key, at least
one song (a song-less album emits no rows and cannot be reconstructed), and
song titles pairwise distinct under case folding. -/
def wfAlbum (a : Album) : Prop :=
  trimStable a.title ∧ a.title ≠ "" ∧ trimStable a.cover ∧ a.songs ≠ [] ∧
  (∀ s ∈ a.songs, wfSong a s) ∧
  a.songs.Pairwise (fun s t => lowerStr s.title ≠ lowerStr t.title)

/-- Round-trip well-formedness of a catalog. -/
def wfCatalog (c : List Album) : Prop :=
  (∀ a ∈ c, wfAlbum a) ∧ c.Pairwise (fun a b => lowerStr a.title ≠ lowerStr b.title)

/-- The song produced by the export/import round trip (ids erased):
everything survives except the release date.  The export writes
`normalizeDateSlash(s.releaseDate || a.releaseDate || "")` into the date
column and the importer feeds that cell back through `normalizeDateFromAny`
(so a value the DateNormalizer mangles — e.g. a bare four-digit year, which
is epoch-converted — comes back mangled); an empty result falls back to the
import-day default. -/
def roundSong (today : String) (a : Album) (s : Song) : Song :=
  { id := 0, title := s.title,
    releaseDate := jsOr (normalizeDateFromAny
      (normalizeDateSlash (jsOr s.releaseDate (jsOr a.releaseDate "")))) today,
    lyricist := s.lyricist, composer := s.composer,
    lyrics := s.lyrics.map eraseLine, vocab := s.vocab.map eraseVocab,
    grammar := s.grammar.map eraseGrammar }

/-- The album produced by the round trip (ids erased): the release date is
reset to the import day — no album-date column is ever exported — and the
cover survives through the per-row cover cells. -/
def roundAlbum (today : String) (a : Album) : Album :=
  { id := 0, title := a.title, releaseDate := today, cover := a.cover,
    songs := a.songs.map (roundSong today a) }

/-- A one-album, one-song, one-lyric-line catalog whose release dates do not
survive the round trip. -/
def cexSong : Song :=
  { id := 78, title := "S", releaseDate := "", lyricist := "", composer := "",
    lyrics := [⟨1, "ka", "za"⟩], vocab := [], grammar := [] }

/-- The catalog holding `cexSong` in one album dated `2015-09-07`. -/
def cexCatalog : List Album :=
  [{ id := 77, title := "A", releaseDate := "2015-09-07", cover := "", songs := [cexSong] }]

/-- What importing the full-field export of `cexCatalog` into an empty
catalog actually produces on 2026/1/1. -/
def cexRoundOutSong : Song :=
  { id := 1, title := "S", releaseDate := "2015/9/7", lyricist := "", composer := "",
    lyrics := [⟨2, "ka", "za"⟩], vocab := [], grammar := [] }

/-- The round-trip image of `cexCatalog`: one album dated at the import day. -/
def cexRoundOut : List Album :=
  [{ id := 0, title := "A", releaseDate := "2026/1/1", cover := "", songs := [cexRoundOutSong] }]

/-- The release-date cell every exported row of song `s` in album `a`
carries. -/
def exportDate (a : Album) (s : Song) : String :=
  normalizeDateSlash (jsOr s.releaseDate (jsOr a.releaseDate ""))

/-- The state of a freshly created song after all rows of `s` were
accumulated into it: metadata applied once, each non-empty collection sitting
in its pending buffer. -/
def bufferedSongB (today D : String) (σ : Nat) (s : Song) : SongB :=
  { id := σ, title := s.title, releaseDate := jsOr (normalizeDateFromAny D) today,
    lyricist := s.lyricist, composer := s.composer,
    lyrics := [], vocab := [], grammar := [],
    impLyrics := if s.lyrics.isEmpty then none
      else some (s.lyrics.map (fun l => (l.kor, l.zh))),
    impVocab := if s.vocab.isEmpty then none
      else some (s.vocab.map (fun v => (v.word, v.zh))),
    impGrammar := if s.grammar.isEmpty then none
      else some (s.grammar.map (fun g => (g.pattern, g.explain, g.exampleStr))),
    touchedLyrics := !s.lyrics.isEmpty, touchedVocab := !s.vocab.isEmpty,
    touchedGrammar := !s.grammar.isEmpty }

/-- The buffered songs of one album, with ids drawn sequentially from `σ`. -/
def songsOutB (today : String) (a : Album) : Nat → List Song → List SongB
  | _, [] => []
  | σ, s :: rest =>
    bufferedSongB today (exportDate a s) σ s :: songsOutB today a (σ + 1) rest

/-- The accumulated state of one album after all its rows were processed. -/
def albumOutB (today : String) (σ : Nat) (a : Album) : AlbumB :=
  { id := σ, title := a.title, releaseDate := today, cover := a.cover,
    songs := songsOutB today a (σ + 1) a.songs }

/-- The accumulated state of a whole exported catalog. -/
def albumsOutB (today : String) : Nat → List Album → List AlbumB
  | _, [] => []
  | σ, a :: rest => albumOutB today σ a :: albumsOutB today (σ + 1 + a.songs.length) rest

/-- All body rows the export emits for one album. -/
def albumRows (a : Album) : List (List String) :=
  (a.songs.map (exportSongRows allExportCols a)).flatten

/-- A small well-formed catalog exercising all three collections, used to
instantiate the round-trip theorem.  The song carries the bare-year release
date `"2015"`, which the round trip epoch-converts to `"1905/7/7"`. -/
def rtDemoCatalog : List Album :=
  [{ id := 5, title := "The Day", releaseDate := "", cover := "img.png",
     songs :=
       [{ id := 6, title := "Free", releaseDate := "2015", lyricist := "Young K",
          composer := "Jae", lyrics := [⟨7, "ka", "za"⟩],
          vocab := [⟨8, "w", "z"⟩], grammar := [⟨9, "p", "e", "x"⟩] }] }]

/-- The 3-row CSV of the import scenario: header `album,song,kor,zh` and the
rows (The Day, Freely, 안녕, hi), (The Day, Freely, , ), and
(The Day, Congratulations, 좋아, good). -/
def csvThreeRow : String :=
  "album,song,kor,zh\nThe Day,Freely,안녕,hi\nThe Day,Freely,,\nThe Day,Congratulations,좋아,good"

/-- What importing `csvThreeRow` into an empty catalog actually produces
(with `today() = 2026-10-11` and ids drawn from 0):  the header `zh` resolves
to no column — the translation-lyric aliases are `中文歌詞`, `zh_lyric` and
`zh(lyric)` — so both lyric lines carry an empty translation. -/
def threeRowExpected : List Album :=
  [{ id := 0, title := "The Day", releaseDate := "2026-10-11", cover := "",
     songs := [
       { id := 1, title := "Freely", releaseDate := "2026-10-11", lyricist := "",
         composer := "", lyrics := [⟨3, "안녕", ""⟩], vocab := [], grammar := [] },
       { id := 2, title := "Congratulations", releaseDate := "2026-10-11",
         lyricist := "", composer := "", lyrics := [⟨4, "좋아", ""⟩], vocab := [],
         grammar := [] }] }]

/-- Every song of `orig` is still present at its position in `cur` with the
same id and title. -/
def songsPresB (orig : List Song) (cur : List SongB) : Prop :=
  ∀ j s, orig.get? j = some s →
    ∃ sb : SongB, cur.get? j = some sb ∧ sb.id = s.id ∧ sb.title = s.title

/-- Every album of `orig` is still present at its position in `cur` with the
same id and title, and with its songs preserved likewise. -/
def albumsPresB (orig : List Album) (cur : List AlbumB) : Prop :=
  ∀ i a, orig.get? i = some a →
    ∃ ab : AlbumB, cur.get? i = some ab ∧ ab.id = a.id ∧ ab.title = a.title ∧
      songsPresB a.songs ab.songs

/-- A small pre-existing catalog used to witness id preservation. -/
def presDemoSong : Song :=
  { id := 42, title := "Freely", releaseDate := "2015-09-07", lyricist := "",
    composer := "", lyrics := [], vocab := [], grammar := [] }

/-- One album with id 41 holding `presDemoSong`. -/
def presDemoCatalog : List Album :=
  [{ id := 41, title := "The Day", releaseDate := "2015-09-07", cover := "",
     songs := [presDemoSong] }]

/-- Every song of `orig` is still present at its position in `cur` with the
same three base collections (`lyrics`, `vocab`, `grammar`). -/
def songsKeepColl (orig cur : List SongB) : Prop :=
  ∀ j sb, orig.get? j = some sb →
    ∃ sb' : SongB, cur.get? j = some sb' ∧ sb'.lyrics = sb.lyrics ∧
      sb'.vocab = sb.vocab ∧ sb'.grammar = sb.grammar

/-- Every album of `orig` is still present at its position in `cur` with its
songs' base collections unchanged. -/
def albumsKeepColl (orig cur : List AlbumB) : Prop :=
  ∀ i ab, orig.get? i = some ab →
    ∃ ab' : AlbumB, cur.get? i = some ab' ∧ songsKeepColl ab.songs ab'.songs

/-- A song whose three buffers are all pending (used as a witness input). -/
def demoTouched : SongB :=
  { id := 9, title := "S", releaseDate := "", lyricist := "", composer := "",
    lyrics := [⟨1, "old", ""⟩], vocab := [⟨2, "ow", "oz"⟩],
    grammar := [⟨3, "op", "oe", "ox"⟩],
    impLyrics := some [("a", "1"), ("", "")], impVocab := some [("w", "z")],
    impGrammar := some [("p", "e", "x")],
    touchedLyrics := true, touchedVocab := true, touchedGrammar := true }

/-- A song with no pending buffer (used as a witness input). -/
def demoUntouched : SongB :=
  { id := 9, title := "S", releaseDate := "", lyricist := "", composer := "",
    lyrics := [⟨1, "old", ""⟩], vocab := [⟨2, "ow", "oz"⟩],
    grammar := [⟨3, "op", "oe", "ox"⟩],
    impLyrics := none, impVocab := none, impGrammar := none,
    touchedLyrics := false, touchedVocab := false, touchedGrammar := false }

/-! ## Helper lemmas -/

lemma modifyAt_get?_self {α : Type} {l : List α} {i : Nat} {x : α} (f : α → α)
    (h : l.get? i = some x) : (modifyAt l i f).get? i = some (f x) := by
  unfold modifyAt
  rw [h, List.get?_set_eq, h]
  rfl

lemma modifyAt_get?_ne {α : Type} {l : List α} {i j : Nat} (f : α → α)
    (hij : i ≠ j) : (modifyAt l i f).get? j = l.get? j := by
  unfold modifyAt
  cases h : l.get? i with
  | none => rfl
  | some x => exact List.get?_set_ne _ _ hij

lemma modifyAt_length {α : Type} (l : List α) (i : Nat) (f : α → α) :
    (modifyAt l i f).length = l.length := by
  unfold modifyAt
  cases h : l.get? i with
  | none => rfl
  | some x => exact List.length_set l i (f x)

lemma getAlbumIndex_stat (today : String) (st : ImpState) (title : String) :
    (getAlbumIndex today st title).1.stat = st.stat := by
  unfold getAlbumIndex
  cases st.albums.findIdx? (fun a => lowerStr a.title == lowerStr title) <;> rfl

lemma getSongIndex_stat (today : String) (st : ImpState) (ai : Nat) (title : String) :
    (getSongIndex today st ai title).1.stat = st.stat := by
  unfold getSongIndex
  cases (((st.albums.get? ai).map AlbumB.songs).getD []).findIdx?
    (fun s => lowerStr s.title == lowerStr title) <;> rfl

/-! ## Claim theorems -/

/-- Claim C3 (counterexample): the song appended by `getSongIndex` gets
`releaseDate: today()`, not the containing album's release date — here the
album was released on `2015-09-07`, the import runs on `2026-10-11`, and
the fresh song carries `2026-10-11`. -/
theorem getSongIndex_default_date_cex :
    ((((getSongIndex "2026-10-11"
          ⟨[⟨5, "The Day", "2015-09-07", "", []⟩], 6, ⟨0, 0, 0, 0⟩⟩
          0 "Freely").1.albums.headD (newAlbumB 0 "" "")).songs.headD
            (newSongB 0 "" "")).releaseDate = "2026-10-11") ∧
    ("2026-10-11" : String) ≠ "2015-09-07" := by
  constructor
  · rfl
  · decide

/-- Claim C3 (amended): when a row's song title has no case-insensitive match
within its album, `getSongIndex` appends a new song whose default release
date is the import-time `today()` value (not the album's release date). -/
theorem getSongIndex_appends_with_today (today : String) (st : ImpState) (ai : Nat)
    (a : AlbumB) (title : String) (ha : st.albums.get? ai = some a)
    (hnone : a.songs.findIdx? (fun s => lowerStr s.title == lowerStr title) = none) :
    (getSongIndex today st ai title).1.albums.get? ai =
      some { a with songs := a.songs ++ [newSongB st.fresh title today] } ∧
    (newSongB st.fresh title today).releaseDate = today ∧
    (getSongIndex today st ai title).2 = a.songs.length := by
  have h1 : (getSongIndex today st ai title).1.albums.get? ai =
      some { a with songs := a.songs ++ [newSongB st.fresh title today] } := by
    unfold getSongIndex
    rw [ha]
    simp only [Option.map_some', Option.getD_some, hnone]
    exact modifyAt_get?_self _ ha
  have h3 : (getSongIndex today st ai title).2 = a.songs.length := by
    unfold getSongIndex
    rw [ha]
    simp only [Option.map_some', Option.getD_some, hnone]
  exact ⟨h1, rfl, h3⟩

/-- Witness for `getSongIndex_appends_with_today` at a concrete state. -/
theorem getSongIndex_appends_with_today_witness :
    (getSongIndex "2026-10-11" ⟨[⟨5, "The Day", "2015-09-07", "", []⟩], 6, ⟨0, 0, 0, 0⟩⟩
        0 "Freely").1.albums.get? 0 =
      some { (⟨5, "The Day", "2015-09-07", "", []⟩ : AlbumB) with
        songs := [] ++ [newSongB 6 "Freely" "2026-10-11"] } ∧
    (newSongB 6 "Freely" "2026-10-11").releaseDate = "2026-10-11" ∧
    (getSongIndex "2026-10-11" ⟨[⟨5, "The Day", "2015-09-07", "", []⟩], 6, ⟨0, 0, 0, 0⟩⟩
        0 "Freely").2 = ([] : List SongB).length :=
  getSongIndex_appends_with_today "2026-10-11"
    ⟨[⟨5, "The Day", "2015-09-07", "", []⟩], 6, ⟨0, 0, 0, 0⟩⟩ 0
    ⟨5, "The Day", "2015-09-07", "", []⟩ "Freely" rfl (by decide)

/-- Claim C7: in the metadata block of the row loop each field of the matched
song (release date, lyricist, composer) and the matched album's cover is
overwritten exactly when the corresponding (normalised/stripped) cell value
is non-empty, and a blank cell leaves the previous value — and nothing else
of the song or album — unchanged. -/
theorem metadata_overwritten_iff_cell_nonempty :
    (∀ (s : SongB) (date lyr comp : String),
      ((applyMeta s date lyr comp).releaseDate =
        if date ≠ "" then date else s.releaseDate) ∧
      ((applyMeta s date lyr comp).lyricist = if lyr ≠ "" then lyr else s.lyricist) ∧
      ((applyMeta s date lyr comp).composer = if comp ≠ "" then comp else s.composer) ∧
      (applyMeta s date lyr comp).id = s.id ∧
      (applyMeta s date lyr comp).title = s.title ∧
      (applyMeta s date lyr comp).lyrics = s.lyrics ∧
      (applyMeta s date lyr comp).vocab = s.vocab ∧
      (applyMeta s date lyr comp).grammar = s.grammar ∧
      (applyMeta s date lyr comp).impLyrics = s.impLyrics ∧
      (applyMeta s date lyr comp).impVocab = s.impVocab ∧
      (applyMeta s date lyr comp).impGrammar = s.impGrammar) ∧
    (∀ (a : AlbumB) (cov : String),
      ((applyCover a cov).cover = if cov ≠ "" then cov else a.cover) ∧
      (applyCover a cov).id = a.id ∧
      (applyCover a cov).title = a.title ∧
      (applyCover a cov).releaseDate = a.releaseDate ∧
      (applyCover a cov).songs = a.songs) := by
  constructor
  · intro s date lyr comp
    unfold applyMeta
    by_cases hd : date = "" <;> by_cases hl : lyr = "" <;> by_cases hc : comp = "" <;>
      simp [hd, hl, hc]
  · intro a cov
    unfold applyCover
    by_cases hc : cov = "" <;> simp [hc]

/-- Claim C8: when the normalised header row resolves no column for the album
title or none for the song title, the import is rejected as a whole with the
user-facing error message, before any row is processed, and no catalog is
produced (the caller's catalog is untouched). -/
theorem import_aborts_without_required_columns (today : String) (fresh : Nat)
    (rows : List (List String)) (albums : List Album) (hne : rows ≠ [])
    (hmiss : (importCols rows).albumTitle = none ∨ (importCols rows).songTitle = none) :
    importGrid today fresh rows albums =
      .error "欄位缺少「專輯名稱 / 歌曲名稱」，請使用統一範本 .xlsx 或 .txt" ∧
    importAlbums today fresh rows albums = none := by
  have hE : rows.isEmpty = false := by
    simpa [List.isEmpty_iff] using hne
  have hcond :
      ((importCols rows).albumTitle.isNone || (importCols rows).songTitle.isNone) = true := by
    rcases hmiss with h | h <;>
      simp only [h, Option.isNone_none, Bool.true_or, Bool.or_true]
  have h1 : importGrid today fresh rows albums =
      .error "欄位缺少「專輯名稱 / 歌曲名稱」，請使用統一範本 .xlsx 或 .txt" := by
    unfold importGrid
    rw [hE]
    simp only [Bool.false_eq_true, if_false]
    rw [if_pos hcond]
  exact ⟨h1, by simp [importAlbums, h1, Except.toOption]⟩

/-- Witness for `import_aborts_without_required_columns`: a file whose only
header is `album` resolves no song-title column and is rejected. -/
theorem import_aborts_without_required_columns_witness :
    importGrid "2026-10-11" 0 [["album"], ["The Day"]] [] =
      .error "欄位缺少「專輯名稱 / 歌曲名稱」，請使用統一範本 .xlsx 或 .txt" ∧
    importAlbums "2026-10-11" 0 [["album"], ["The Day"]] [] = none :=
  import_aborts_without_required_columns "2026-10-11" 0 [["album"], ["The Day"]] []
    (by decide) (Or.inr (by decide))

/-- Claim C9: the raw headers `album` and `albumtitle(optional)` both resolve
to the album-title field; the exact-match tier of `idxOfAny` is exhausted
before the prefix tier, the prefix tier before the substring tier, and within
a tier the first alias in the list wins. -/
theorem header_resolution_tiers :
    (resolveCols [normalizeHeader (stripCell "album")]).albumTitle = some 0 ∧
    (resolveCols [normalizeHeader (stripCell "albumtitle(optional)")]).albumTitle = some 0 ∧
    (∀ H aliases, (exactTier H aliases).isSome = true →
      idxOfAny H aliases = exactTier H aliases) ∧
    (∀ H aliases, exactTier H aliases = none → (startTier H aliases).isSome = true →
      idxOfAny H aliases = startTier H aliases) ∧
    (∀ H aliases, exactTier H aliases = none → startTier H aliases = none →
      idxOfAny H aliases = subTier H aliases) ∧
    (∀ (H : List String) (a : String) (rest : List String) (f : String → String → Bool)
      (i : Nat), H.findIdx? (fun h => f h a) = some i → tierIdx H (a :: rest) f = some i) := by
  refine ⟨by decide, by decide, ?_, ?_, ?_, ?_⟩
  · intro H aliases h
    unfold idxOfAny
    cases hE : exactTier H aliases with
    | some i => rfl
    | none => rw [hE] at h; simp at h
  · intro H aliases hE hS
    unfold idxOfAny
    rw [hE]
    cases hS' : startTier H aliases with
    | some i => rfl
    | none => rw [hS'] at hS; simp at hS
  · intro H aliases hE hS
    unfold idxOfAny
    rw [hE, hS]
  · intro H a rest f i h
    unfold tierIdx
    rw [h]

/-- Witness for `header_resolution_tiers`: with header row `["album"]` an
exact match on the alias `album` exists, so the exact tier decides. -/
theorem header_resolution_tiers_witness :
    idxOfAny ["album"] ["albumtitle", "album"] =
      exactTier ["album"] ["albumtitle", "album"] ∧
    idxOfAny ["albumx"] ["album"] = startTier ["albumx"] ["album"] ∧
    idxOfAny ["xalbum"] ["album"] = subTier ["xalbum"] ["album"] ∧
    tierIdx ["song", "album"] ("album" :: ["al"]) (fun h a => h == a) = some 1 :=
  ⟨header_resolution_tiers.2.2.1 ["album"] ["albumtitle", "album"] (by decide),
   header_resolution_tiers.2.2.2.1 ["albumx"] ["album"] (by decide) (by decide),
   header_resolution_tiers.2.2.2.2.1 ["xalbum"] ["album"] (by decide) (by decide),
   header_resolution_tiers.2.2.2.2.2 ["song", "album"] "album" ["al"]
     (fun h a => h == a) 1 (by decide)⟩

lemma isDigit_not_isWhitespace {c : Char} (h : c.isDigit = true) :
    c.isWhitespace = false := by
  by_contra hw
  rw [Bool.not_eq_false] at hw
  simp only [Char.isWhitespace] at hw
  have hc : ((c = ' ' ∨ c = '\t') ∨ c = '\x0d') ∨ c = '\n' := by
    simpa using hw
  rcases hc with ((rfl | rfl) | rfl) | rfl <;> simp [Char.isDigit] at h

lemma dropWhile_ws_of_digits {ds : List Char} (h : ∀ c ∈ ds, c.isDigit = true) :
    ds.dropWhile Char.isWhitespace = ds := by
  cases ds with
  | nil => rfl
  | cons c t =>
    rw [List.dropWhile_cons, isDigit_not_isWhitespace (h c (by simp))]
    simp

lemma jsTrimList_of_digits {ds : List Char} (h : ∀ c ∈ ds, c.isDigit = true) :
    jsTrimList ds = ds := by
  unfold jsTrimList
  rw [dropWhile_ws_of_digits h,
    dropWhile_ws_of_digits (fun c hc => h c (List.mem_reverse.mp hc)),
    List.reverse_reverse]

lemma takeWhile_digits_of_digits {ds : List Char} (h : ∀ c ∈ ds, c.isDigit = true) :
    ds.takeWhile Char.isDigit = ds :=
  List.takeWhile_eq_self_iff.mpr h

lemma dropWhile_digits_of_digits {ds : List Char} (h : ∀ c ∈ ds, c.isDigit = true) :
    ds.dropWhile Char.isDigit = [] :=
  List.dropWhile_eq_nil_iff.mpr h

/-- Claim C4 (counterexample): the all-digit string `"2015"` — a bare 4-digit
year, well below the plausible serial range — is nevertheless converted via
the spreadsheet epoch by the string path of `normalizeDateFromAny`, yielding
`1905/7/7` instead of being left as free text. -/
theorem normalizeDate_bare_year_converted_cex :
    normalizeDateFromAny "2015" = serialToYMD 2015 ∧
    serialToYMD 2015 = "1905/7/7" ∧
    normalizeDateSlash "2015" = "2015" ∧
    ("1905/7/7" : String) ≠ "2015" := by
  refine ⟨by decide, by decide, by decide, by decide⟩

/-- Claim C4 (amended): the string path of `normalizeDateFromAny` converts
every all-digit 4–5-digit string via the spreadsheet epoch with no range
check at all (so a bare 4-digit year is converted too); in particular the
serial string `"42254"` normalises to `"2015/9/7"`.  Only a native numeric
cell is range-checked against `20000 < v < 60000`. -/
theorem normalizeDate_digit_string_uses_epoch :
    normalizeDateFromAny "42254" = "2015/9/7" ∧
    (∀ ds : List Char, (ds.length = 4 ∨ ds.length = 5) → (∀ c ∈ ds, c.isDigit = true) →
      normalizeDateFromAny (String.mk ds) = serialToYMD (natOfDigits ds)) ∧
    (∀ v : Int, ¬(20000 < v ∧ v < 60000) →
      normalizeDateFromAnyNum v = normalizeDateFromAny (toString v)) ∧
    (∀ v : Int, 20000 < v → v < 60000 → normalizeDateFromAnyNum v = serialToYMD v.toNat) := by
  refine ⟨by decide, ?_, ?_, ?_⟩
  · intro ds hlen hdig
    have htr : jsTrim (String.mk ds) = String.mk ds := by
      show String.mk (jsTrimList ds) = String.mk ds
      rw [jsTrimList_of_digits hdig]
    have hts : (String.mk ds).toList = ds := rfl
    have hpat : serialPat (String.mk ds) = true := by
      simp only [serialPat]
      rw [hts, takeWhile_digits_of_digits hdig, dropWhile_digits_of_digits hdig]
      rcases hlen with h | h <;> simp [h]
    simp only [normalizeDateFromAny, htr, hpat, if_true]
    rw [hts, takeWhile_digits_of_digits hdig]
  · intro v hv
    unfold normalizeDateFromAnyNum
    rw [if_neg hv]
  · intro v h1 h2
    unfold normalizeDateFromAnyNum
    rw [if_pos ⟨h1, h2⟩]

/-- Witness for `normalizeDate_digit_string_uses_epoch`: the bare year
`"2015"` goes through the epoch, a numeric `70000` falls back to the string
path, and a numeric `42254` is converted directly. -/
theorem normalizeDate_digit_string_uses_epoch_witness :
    normalizeDateFromAny (String.mk ['2', '0', '1', '5']) =
      serialToYMD (natOfDigits ['2', '0', '1', '5']) ∧
    normalizeDateFromAnyNum 70000 = normalizeDateFromAny (toString (70000 : Int)) ∧
    normalizeDateFromAnyNum 42254 = serialToYMD (Int.toNat 42254) :=
  ⟨normalizeDate_digit_string_uses_epoch.2.1 ['2', '0', '1', '5'] (Or.inl (by decide))
      (by decide),
   normalizeDate_digit_string_uses_epoch.2.2.1 70000 (by decide),
   normalizeDate_digit_string_uses_epoch.2.2.2 42254 (by decide) (by decide)⟩

/-- Claim C5: a row whose grammar-pattern cell is non-empty is classified as
a grammar row and never as a vocabulary row, even when a vocabulary cell is
also non-empty: the vocabulary buffer of the matched song is untouched, the
grammar buffer receives the row, the grammar counter increments while the
vocabulary counter does not, and the lyric classification of the same row
depends only on the two lyric cells. -/
theorem grammar_excludes_vocab (col : Cols) (today : String) (st : ImpState)
    (r : List String)
    (hA : cellAt r col.albumTitle ≠ "") (hS : cellAt r col.songTitle ≠ "")
    (hp : cellAt r col.pattern ≠ "")
    (hw : cellAt r col.word ≠ "" ∨ cellAt r col.zhWord ≠ "") :
    (∀ wordVal zhWdVal pattVal : String, isGrammarRowB pattVal = true →
      isVocabRowB wordVal zhWdVal pattVal = false) ∧
    (∀ (s : SongB) (date lyr comp korVal zhLyVal wordVal zhWdVal pattVal explVal
        exmpVal : String), isGrammarRowB pattVal = true →
      (songRowUpdate s date lyr comp korVal zhLyVal wordVal zhWdVal pattVal explVal
          exmpVal).impVocab = s.impVocab ∧
      (songRowUpdate s date lyr comp korVal zhLyVal wordVal zhWdVal pattVal explVal
          exmpVal).touchedVocab = s.touchedVocab ∧
      (songRowUpdate s date lyr comp korVal zhLyVal wordVal zhWdVal pattVal explVal
          exmpVal).impGrammar =
        pushOpt ((if isLyricRowB korVal zhLyVal then
            { applyMeta s date lyr comp with
              impLyrics := pushOpt (applyMeta s date lyr comp).impLyrics (korVal, zhLyVal),
              touchedLyrics := true }
          else applyMeta s date lyr comp).impGrammar) (pattVal, explVal, exmpVal) ∧
      (songRowUpdate s date lyr comp korVal zhLyVal wordVal zhWdVal pattVal explVal
          exmpVal).touchedGrammar = true) ∧
    (processRow col today st r).stat.grammar = st.stat.grammar + 1 ∧
    (processRow col today st r).stat.vocab = st.stat.vocab ∧
    (processRow col today st r).stat.lyric = st.stat.lyric +
      (if isLyricRowB (cellAt r col.kor) (cellAt r col.zhLyric) then 1 else 0) := by
  have hexcl : ∀ wordVal zhWdVal pattVal : String, isGrammarRowB pattVal = true →
      isVocabRowB wordVal zhWdVal pattVal = false := by
    intro w z p h
    unfold isVocabRowB
    rw [h]
    simp
  have hupd : ∀ (s : SongB) (date lyr comp korVal zhLyVal wordVal zhWdVal pattVal
      explVal exmpVal : String), isGrammarRowB pattVal = true →
      (songRowUpdate s date lyr comp korVal zhLyVal wordVal zhWdVal pattVal explVal
          exmpVal).impVocab = s.impVocab ∧
      (songRowUpdate s date lyr comp korVal zhLyVal wordVal zhWdVal pattVal explVal
          exmpVal).touchedVocab = s.touchedVocab ∧
      (songRowUpdate s date lyr comp korVal zhLyVal wordVal zhWdVal pattVal explVal
          exmpVal).impGrammar =
        pushOpt ((if isLyricRowB korVal zhLyVal then
            { applyMeta s date lyr comp with
              impLyrics := pushOpt (applyMeta s date lyr comp).impLyrics (korVal, zhLyVal),
              touchedLyrics := true }
          else applyMeta s date lyr comp).impGrammar) (pattVal, explVal, exmpVal) ∧
      (songRowUpdate s date lyr comp korVal zhLyVal wordVal zhWdVal pattVal explVal
          exmpVal).touchedGrammar = true := by
    intro s date lyr comp korVal zhLyVal wordVal zhWdVal pattVal explVal exmpVal h
    unfold songRowUpdate
    rw [hexcl wordVal zhWdVal pattVal h, h]
    have hmetaV : (applyMeta s date lyr comp).impVocab = s.impVocab := by
      unfold applyMeta
      by_cases hd : date = "" <;> by_cases hl : lyr = "" <;> by_cases hc : comp = "" <;>
        simp [hd, hl, hc]
    have hmetaT : (applyMeta s date lyr comp).touchedVocab = s.touchedVocab := by
      unfold applyMeta
      by_cases hd : date = "" <;> by_cases hl : lyr = "" <;> by_cases hc : comp = "" <;>
        simp [hd, hl, hc]
    by_cases hL : isLyricRowB korVal zhLyVal = true <;> simp [hL, hmetaV, hmetaT]
  refine ⟨hexcl, hupd, ?_⟩
  have hGval : isGrammarRowB (cellAt r col.pattern) = true := by
    unfold isGrammarRowB
    simpa using hp
  have hVval : isVocabRowB (cellAt r col.word) (cellAt r col.zhWord)
      (cellAt r col.pattern) = false := hexcl _ _ _ hGval
  unfold processRow
  rw [if_neg (by simp [hA, hS])]
  simp only [hGval, hVval, Bool.false_eq_true, if_false, if_true,
    getAlbumIndex_stat, getSongIndex_stat]
  refine ⟨?_, ?_, ?_⟩ <;>
    simp [getAlbumIndex_stat, getSongIndex_stat, hGval, hVval]

/-- Witness for `grammar_excludes_vocab` on a concrete one-row state. -/
theorem grammar_excludes_vocab_witness :
    (∀ wordVal zhWdVal pattVal : String, isGrammarRowB pattVal = true →
      isVocabRowB wordVal zhWdVal pattVal = false) ∧
    (∀ (s : SongB) (date lyr comp korVal zhLyVal wordVal zhWdVal pattVal explVal
        exmpVal : String), isGrammarRowB pattVal = true →
      (songRowUpdate s date lyr comp korVal zhLyVal wordVal zhWdVal pattVal explVal
          exmpVal).impVocab = s.impVocab ∧
      (songRowUpdate s date lyr comp korVal zhLyVal wordVal zhWdVal pattVal explVal
          exmpVal).touchedVocab = s.touchedVocab ∧
      (songRowUpdate s date lyr comp korVal zhLyVal wordVal zhWdVal pattVal explVal
          exmpVal).impGrammar =
        pushOpt ((if isLyricRowB korVal zhLyVal then
            { applyMeta s date lyr comp with
              impLyrics := pushOpt (applyMeta s date lyr comp).impLyrics (korVal, zhLyVal),
              touchedLyrics := true }
          else applyMeta s date lyr comp).impGrammar) (pattVal, explVal, exmpVal) ∧
      (songRowUpdate s date lyr comp korVal zhLyVal wordVal zhWdVal pattVal explVal
          exmpVal).touchedGrammar = true) ∧
    (processRow (resolveCols ["專輯名稱", "歌曲名稱", "韓文文法", "韓文單字"]) "2026-10-11"
        ⟨[], 0, ⟨0, 0, 0, 0⟩⟩ ["A", "S", "-는데", "word"]).stat.grammar = 0 + 1 ∧
    (processRow (resolveCols ["專輯名稱", "歌曲名稱", "韓文文法", "韓文單字"]) "2026-10-11"
        ⟨[], 0, ⟨0, 0, 0, 0⟩⟩ ["A", "S", "-는데", "word"]).stat.vocab = 0 ∧
    (processRow (resolveCols ["專輯名稱", "歌曲名稱", "韓文文法", "韓文單字"]) "2026-10-11"
        ⟨[], 0, ⟨0, 0, 0, 0⟩⟩ ["A", "S", "-는데", "word"]).stat.lyric = 0 +
      (if isLyricRowB
          (cellAt ["A", "S", "-는데", "word"]
            (resolveCols ["專輯名稱", "歌曲名稱", "韓文文法", "韓文單字"]).kor)
          (cellAt ["A", "S", "-는데", "word"]
            (resolveCols ["專輯名稱", "歌曲名稱", "韓文文法", "韓文單字"]).zhLyric)
        then 1 else 0) :=
  grammar_excludes_vocab (resolveCols ["專輯名稱", "歌曲名稱", "韓文文法", "韓文單字"])
    "2026-10-11" ⟨[], 0, ⟨0, 0, 0, 0⟩⟩ ["A", "S", "-는데", "word"]
    (by decide) (by decide) (by decide) (Or.inl (by decide))

/-- Claim C1 (counterexample): in the 3-row CSV scenario the `zh` header does
not resolve to the translation column, so the single `LyricLine` of "Freely"
has `translationText = ""`, not `"hi"` as the claim states. -/
theorem threeRow_translation_dropped_cex :
    importAlbums "2026-10-11" 0 (parseCSV csvThreeRow) [] = some threeRowExpected ∧
    (threeRowExpected.map (fun a => a.songs.map (fun s => s.lyrics.map LyricLine.zh))) =
      [[[""], [""]]] ∧
    ("" : String) ≠ "hi" := by
  refine ⟨by decide, by decide, by decide⟩

/-- Claim C1 (amended): importing the 3-row CSV into an empty catalog yields
exactly one album "The Day" with exactly two songs; "Freely" has exactly one
`LyricLine` with `sourceText = "안녕"` and `translationText = ""` (the fully
blank row is skipped), and "Congratulations" has exactly one `LyricLine`
with `sourceText = "좋아"` and `translationText = ""` — the `zh` header does
not match any translation-column alias of this importer, so the translation
cells are dropped. -/
theorem threeRow_import_scenario :
    importAlbums "2026-10-11" 0 (parseCSV csvThreeRow) [] = some threeRowExpected ∧
    importStats "2026-10-11" 0 (parseCSV csvThreeRow) [] = some ⟨2, 0, 0, 1⟩ := by
  refine ⟨by decide, by decide⟩

lemma songsPresB_append {orig : List Song} {cur : List SongB} (h : songsPresB orig cur)
    (x : SongB) : songsPresB orig (cur ++ [x]) := by
  intro j s hj
  obtain ⟨sb, hget, hid, htitle⟩ := h j s hj
  refine ⟨sb, ?_, hid, htitle⟩
  rw [List.get?_append]
  · exact hget
  · exact (List.get?_eq_some.mp hget).1

lemma albumsPresB_append {orig : List Album} {cur : List AlbumB}
    (h : albumsPresB orig cur) (x : AlbumB) : albumsPresB orig (cur ++ [x]) := by
  intro i a hi
  obtain ⟨ab, hget, hid, htitle, hsongs⟩ := h i a hi
  refine ⟨ab, ?_, hid, htitle, hsongs⟩
  rw [List.get?_append]
  · exact hget
  · exact (List.get?_eq_some.mp hget).1

lemma songsPresB_modifyAt {orig : List Song} {cur : List SongB} (h : songsPresB orig cur)
    (si : Nat) (g : SongB → SongB)
    (hg : ∀ sb, (g sb).id = sb.id ∧ (g sb).title = sb.title) :
    songsPresB orig (modifyAt cur si g) := by
  intro j s hj
  obtain ⟨sb, hget, hid, htitle⟩ := h j s hj
  by_cases hij : si = j
  · subst hij
    exact ⟨g sb, modifyAt_get?_self g hget, (hg sb).1.trans hid, (hg sb).2.trans htitle⟩
  · refine ⟨sb, ?_, hid, htitle⟩
    rw [modifyAt_get?_ne g hij]
    exact hget

lemma albumsPresB_modifyAt {orig : List Album} {cur : List AlbumB}
    (h : albumsPresB orig cur) (ai : Nat) (f : AlbumB → AlbumB)
    (hf : ∀ ab, (f ab).id = ab.id ∧ (f ab).title = ab.title ∧
      (∀ o, songsPresB o ab.songs → songsPresB o (f ab).songs)) :
    albumsPresB orig (modifyAt cur ai f) := by
  intro i a hi
  obtain ⟨ab, hget, hid, htitle, hsongs⟩ := h i a hi
  by_cases hij : ai = i
  · subst hij
    exact ⟨f ab, modifyAt_get?_self f hget, (hf ab).1.trans hid, (hf ab).2.1.trans htitle,
      (hf ab).2.2 _ hsongs⟩
  · refine ⟨ab, ?_, hid, htitle, hsongs⟩
    rw [modifyAt_get?_ne f hij]
    exact hget

lemma songRowUpdate_id_title (s : SongB) (date lyr comp k z w zw p e x : String) :
    (songRowUpdate s date lyr comp k z w zw p e x).id = s.id ∧
    (songRowUpdate s date lyr comp k z w zw p e x).title = s.title := by
  unfold songRowUpdate applyMeta
  split_ifs <;> simp

lemma applyCover_id_title_songs (a : AlbumB) (cov : String) :
    (applyCover a cov).id = a.id ∧ (applyCover a cov).title = a.title ∧
    (applyCover a cov).songs = a.songs := by
  unfold applyCover
  split_ifs <;> simp

lemma getAlbumIndex_pres {orig : List Album} {st : ImpState}
    (h : albumsPresB orig st.albums) (today title : String) :
    albumsPresB orig (getAlbumIndex today st title).1.albums := by
  unfold getAlbumIndex
  cases st.albums.findIdx? (fun a => lowerStr a.title == lowerStr title) with
  | some ai => exact h
  | none => exact albumsPresB_append h _

lemma getSongIndex_pres {orig : List Album} {st : ImpState}
    (h : albumsPresB orig st.albums) (today : String) (ai : Nat) (title : String) :
    albumsPresB orig (getSongIndex today st ai title).1.albums := by
  unfold getSongIndex
  cases (((st.albums.get? ai).map AlbumB.songs).getD []).findIdx?
      (fun s => lowerStr s.title == lowerStr title) with
  | some si => exact h
  | none =>
    refine albumsPresB_modifyAt h ai _ ?_
    intro ab
    exact ⟨rfl, rfl, fun o ho => songsPresB_append ho _⟩

lemma processRow_pres (col : Cols) (today : String) (r : List String)
    {orig : List Album} {st : ImpState} (h : albumsPresB orig st.albums) :
    albumsPresB orig (processRow col today st r).albums := by
  unfold processRow
  by_cases ht : cellAt r col.albumTitle = "" ∨ cellAt r col.songTitle = ""
  · rw [if_pos (by simpa using ht)]
    exact h
  · rw [if_neg (by simpa using ht)]
    simp only []
    refine albumsPresB_modifyAt
      (getSongIndex_pres (getAlbumIndex_pres h today _) today _ _) _ _ ?_
    intro ab
    refine ⟨(applyCover_id_title_songs _ _).1, (applyCover_id_title_songs _ _).2.1, ?_⟩
    intro o ho
    rw [(applyCover_id_title_songs _ _).2.2]
    exact songsPresB_modifyAt ho _ _ (fun sb => songRowUpdate_id_title sb _ _ _ _ _ _ _ _ _ _)

lemma foldl_processRow_pres (col : Cols) (today : String) (rows : List (List String))
    {orig : List Album} {st : ImpState} (h : albumsPresB orig st.albums) :
    albumsPresB orig (rows.foldl (processRow col today) st).albums := by
  induction rows generalizing st with
  | nil => exact h
  | cons r rest ih => exact ih (processRow_pres col today r h)

lemma commitSongs_pres (fresh : Nat) (cur : List SongB) :
    ∀ j sb, cur.get? j = some sb →
      ∃ s', (commitSongs fresh cur).1.get? j = some s' ∧ s'.id = sb.id ∧
        s'.title = sb.title := by
  induction cur generalizing fresh with
  | nil => intro j sb hj; cases j <;> simp at hj
  | cons x rest ih =>
    intro j sb hj
    cases j with
    | zero =>
      cases hj
      exact ⟨(commitSong fresh x).1, rfl, rfl, rfl⟩
    | succ k =>
      obtain ⟨s', hget, hid, htitle⟩ := ih (commitSong fresh x).2 k sb hj
      exact ⟨s', hget, hid, htitle⟩

lemma commitAlbums_pres (fresh : Nat) (cur : List AlbumB) :
    ∀ i ab, cur.get? i = some ab →
      ∃ a', (commitAlbums fresh cur).1.get? i = some a' ∧ a'.id = ab.id ∧
        a'.title = ab.title ∧
        (∀ j sb, ab.songs.get? j = some sb →
          ∃ s', a'.songs.get? j = some s' ∧ s'.id = sb.id ∧ s'.title = sb.title) := by
  induction cur generalizing fresh with
  | nil => intro i ab hi; cases i <;> simp at hi
  | cons x rest ih =>
    intro i ab hi
    cases i with
    | zero =>
      cases hi
      refine ⟨_, rfl, rfl, rfl, ?_⟩
      intro j sb hj
      exact commitSongs_pres fresh x.songs j sb hj
    | succ k =>
      obtain ⟨a', hget, hid, htitle, hsongs⟩ := ih (commitSongs fresh x.songs).2 k ab hi
      exact ⟨a', hget, hid, htitle, hsongs⟩

lemma importGrid_ok_shape {today : String} {fresh : Nat} {rows : List (List String)}
    {albums : List Album} {p : List Album × Stat}
    (h : importGrid today fresh rows albums = .ok p) :
    p = ((commitAlbums (importFold today fresh rows albums).fresh
          (importFold today fresh rows albums).albums).1,
         (importFold today fresh rows albums).stat) := by
  unfold importGrid at h
  by_cases hemp : rows.isEmpty = true
  · rw [if_pos hemp] at h
    cases h
  · rw [if_neg hemp] at h
    simp only [] at h
    by_cases hcol : ((importCols rows).albumTitle.isNone ||
        (importCols rows).songTitle.isNone) = true
    · rw [if_pos hcol] at h
      cases h
    · rw [if_neg hcol] at h
      cases h
      rfl

/-- Claim C10: every album and every song that exists in the catalog before
an import keeps its position, its id and its title through a successful
pass of the importer (in particular every entry matched by case-insensitive
title keeps its id; only newly created entries receive fresh ids). -/
theorem import_preserves_existing_ids (today : String) (fresh : Nat)
    (rows : List (List String)) (c out : List Album)
    (hok : importAlbums today fresh rows c = some out) :
    ∀ i a, c.get? i = some a →
      ∃ a', out.get? i = some a' ∧ a'.id = a.id ∧ a'.title = a.title ∧
        ∀ j s, a.songs.get? j = some s →
          ∃ s', a'.songs.get? j = some s' ∧ s'.id = s.id ∧ s'.title = s.title := by
  unfold importAlbums at hok
  cases hgrid : importGrid today fresh rows c with
  | error e => rw [hgrid] at hok; simp [Except.toOption] at hok
  | ok p =>
    rw [hgrid] at hok
    simp only [Except.toOption, Option.map_some'] at hok
    have hp := importGrid_ok_shape hgrid
    have hout : out = (commitAlbums (importFold today fresh rows c).fresh
        (importFold today fresh rows c).albums).1 := by
      rw [← Option.some_inj.mp hok, hp]
    subst hout
    have hinit : albumsPresB c (importStart fresh c).albums := by
      intro i a hi
      refine ⟨Album.toB a, ?_, rfl, rfl, ?_⟩
      · show (c.map Album.toB).get? i = some (Album.toB a)
        rw [List.get?_map, hi]
        rfl
      · intro j s hj
        refine ⟨Song.toB s, ?_, rfl, rfl⟩
        show (a.songs.map Song.toB).get? j = some (Song.toB s)
        rw [List.get?_map, hj]
        rfl
    have hfold : albumsPresB c (importFold today fresh rows c).albums :=
      foldl_processRow_pres _ today _ hinit
    intro i a hi
    obtain ⟨ab, hget, hid, htitle, hsongs⟩ := hfold i a hi
    obtain ⟨a', hget', hid', htitle', hsongs'⟩ :=
      commitAlbums_pres (importFold today fresh rows c).fresh
        (importFold today fresh rows c).albums i ab hget
    refine ⟨a', hget', hid'.trans hid, htitle'.trans htitle, ?_⟩
    intro j s hj
    obtain ⟨sb, hgs, hsid, hstitle⟩ := hsongs j s hj
    obtain ⟨s', hgs', hsid', hstitle'⟩ := hsongs' j sb hgs
    exact ⟨s', hgs', hsid'.trans hsid, hstitle'.trans hstitle⟩

/-- Witness for `import_preserves_existing_ids`: re-importing a row onto an
existing catalog keeps album id 41 and song id 42 in place. -/
theorem import_preserves_existing_ids_witness :
    ∃ a', ((importAlbums "2026-10-11" 90
        [["album", "song", "kor"], ["The Day", "Freely", "안녕"]]
        presDemoCatalog).getD []).get? 0 = some a' ∧
      a'.id = (presDemoCatalog.headD ⟨0, "", "", "", []⟩).id ∧
      a'.title = (presDemoCatalog.headD ⟨0, "", "", "", []⟩).title ∧
      ∀ j s, (presDemoCatalog.headD ⟨0, "", "", "", []⟩).songs.get? j = some s →
        ∃ s', a'.songs.get? j = some s' ∧ s'.id = s.id ∧ s'.title = s.title := by
  obtain ⟨a', h1, h2, h3, h4⟩ := import_preserves_existing_ids "2026-10-11" 90
    [["album", "song", "kor"], ["The Day", "Freely", "안녕"]] presDemoCatalog
    ((importAlbums "2026-10-11" 90
        [["album", "song", "kor"], ["The Day", "Freely", "안녕"]]
        presDemoCatalog).getD [])
    (by decide) 0 (presDemoCatalog.headD ⟨0, "", "", "", []⟩) (by decide)
  exact ⟨a', h1, h2, h3, h4⟩

lemma songsKeepColl_append {orig cur : List SongB} (h : songsKeepColl orig cur)
    (x : SongB) : songsKeepColl orig (cur ++ [x]) := by
  intro j sb hj
  obtain ⟨sb', hget, h1, h2, h3⟩ := h j sb hj
  refine ⟨sb', ?_, h1, h2, h3⟩
  rw [List.get?_append]
  · exact hget
  · exact (List.get?_eq_some.mp hget).1

lemma albumsKeepColl_append {orig cur : List AlbumB} (h : albumsKeepColl orig cur)
    (x : AlbumB) : albumsKeepColl orig (cur ++ [x]) := by
  intro i ab hi
  obtain ⟨ab', hget, hsongs⟩ := h i ab hi
  refine ⟨ab', ?_, hsongs⟩
  rw [List.get?_append]
  · exact hget
  · exact (List.get?_eq_some.mp hget).1

lemma songsKeepColl_modifyAt {orig cur : List SongB} (h : songsKeepColl orig cur)
    (si : Nat) (g : SongB → SongB)
    (hg : ∀ sb, (g sb).lyrics = sb.lyrics ∧ (g sb).vocab = sb.vocab ∧
      (g sb).grammar = sb.grammar) :
    songsKeepColl orig (modifyAt cur si g) := by
  intro j sb hj
  obtain ⟨sb', hget, h1, h2, h3⟩ := h j sb hj
  by_cases hij : si = j
  · subst hij
    exact ⟨g sb', modifyAt_get?_self g hget, (hg sb').1.trans h1, (hg sb').2.1.trans h2,
      (hg sb').2.2.trans h3⟩
  · refine ⟨sb', ?_, h1, h2, h3⟩
    rw [modifyAt_get?_ne g hij]
    exact hget

lemma albumsKeepColl_modifyAt {orig cur : List AlbumB} (h : albumsKeepColl orig cur)
    (ai : Nat) (f : AlbumB → AlbumB)
    (hf : ∀ ab, ∀ o, songsKeepColl o ab.songs → songsKeepColl o (f ab).songs) :
    albumsKeepColl orig (modifyAt cur ai f) := by
  intro i ab hi
  obtain ⟨ab', hget, hsongs⟩ := h i ab hi
  by_cases hij : ai = i
  · subst hij
    exact ⟨f ab', modifyAt_get?_self f hget, hf ab' _ hsongs⟩
  · refine ⟨ab', ?_, hsongs⟩
    rw [modifyAt_get?_ne f hij]
    exact hget

lemma songRowUpdate_keeps_colls (s : SongB) (date lyr comp k z w zw p e x : String) :
    (songRowUpdate s date lyr comp k z w zw p e x).lyrics = s.lyrics ∧
    (songRowUpdate s date lyr comp k z w zw p e x).vocab = s.vocab ∧
    (songRowUpdate s date lyr comp k z w zw p e x).grammar = s.grammar := by
  unfold songRowUpdate applyMeta
  split_ifs <;> simp

lemma getAlbumIndex_keeps {orig : List AlbumB} {st : ImpState}
    (h : albumsKeepColl orig st.albums) (today title : String) :
    albumsKeepColl orig (getAlbumIndex today st title).1.albums := by
  unfold getAlbumIndex
  cases st.albums.findIdx? (fun a => lowerStr a.title == lowerStr title) with
  | some ai => exact h
  | none => exact albumsKeepColl_append h _

lemma getSongIndex_keeps {orig : List AlbumB} {st : ImpState}
    (h : albumsKeepColl orig st.albums) (today : String) (ai : Nat) (title : String) :
    albumsKeepColl orig (getSongIndex today st ai title).1.albums := by
  unfold getSongIndex
  cases (((st.albums.get? ai).map AlbumB.songs).getD []).findIdx?
      (fun s => lowerStr s.title == lowerStr title) with
  | some si => exact h
  | none =>
    refine albumsKeepColl_modifyAt h ai _ ?_
    intro ab o ho
    exact songsKeepColl_append ho _

lemma processRow_keeps (col : Cols) (today : String) (r : List String)
    {orig : List AlbumB} {st : ImpState} (h : albumsKeepColl orig st.albums) :
    albumsKeepColl orig (processRow col today st r).albums := by
  unfold processRow
  by_cases ht : cellAt r col.albumTitle = "" ∨ cellAt r col.songTitle = ""
  · rw [if_pos (by simpa using ht)]
    exact h
  · rw [if_neg (by simpa using ht)]
    simp only []
    refine albumsKeepColl_modifyAt
      (getSongIndex_keeps (getAlbumIndex_keeps h today _) today _ _) _ _ ?_
    intro ab o ho
    rw [(applyCover_id_title_songs _ _).2.2]
    exact songsKeepColl_modifyAt ho _ _
      (fun sb => songRowUpdate_keeps_colls sb _ _ _ _ _ _ _ _ _ _)

lemma foldl_processRow_keeps (col : Cols) (today : String) (rows : List (List String))
    {orig : List AlbumB} {st : ImpState} (h : albumsKeepColl orig st.albums) :
    albumsKeepColl orig (rows.foldl (processRow col today) st).albums := by
  induction rows generalizing st with
  | nil => exact h
  | cons r rest ih => exact ih (processRow_keeps col today r h)

/-- Claim C6: after an import pass, for every song each collection whose
pending buffer was touched is fully replaced by exactly the buffered rows —
in push (= file row) order, the lyrics additionally trimmed of trailing
fully-blank pairs — while a collection with no pending buffer keeps exactly
the value it had before the import: the row loop itself never writes the
base collections, and the commit phase assigns the buffer, never an append
of buffer onto the old value. -/
theorem import_replaces_touched_keeps_untouched :
    (∀ (fresh : Nat) (s : SongB) (buf : List (String × String)),
      s.touchedLyrics = true → s.impLyrics = some buf →
      (commitSong fresh s).1.lyrics =
        trimLyricsTailL (buf.enum.map (fun p => ⟨fresh + p.1, p.2.1, p.2.2⟩))) ∧
    (∀ (fresh : Nat) (s : SongB), s.touchedLyrics = false ∨ s.impLyrics = none →
      (commitSong fresh s).1.lyrics = s.lyrics) ∧
    (∀ (fresh : Nat) (s : SongB) (buf : List (String × String)),
      s.touchedVocab = true → s.impVocab = some buf →
      (commitSong fresh s).1.vocab =
        buf.enum.map (fun p => ⟨(commitLyr fresh s).2 + p.1, p.2.1, p.2.2⟩)) ∧
    (∀ (fresh : Nat) (s : SongB), s.touchedVocab = false ∨ s.impVocab = none →
      (commitSong fresh s).1.vocab = s.vocab) ∧
    (∀ (fresh : Nat) (s : SongB) (buf : List (String × String × String)),
      s.touchedGrammar = true → s.impGrammar = some buf →
      (commitSong fresh s).1.grammar =
        buf.enum.map (fun p =>
          ⟨(commitVoc (commitLyr fresh s).2 s).2 + p.1, p.2.1, p.2.2.1, p.2.2.2⟩)) ∧
    (∀ (fresh : Nat) (s : SongB), s.touchedGrammar = false ∨ s.impGrammar = none →
      (commitSong fresh s).1.grammar = s.grammar) ∧
    (∀ (today : String) (fresh : Nat) (rows : List (List String))
      (albums : List Album),
      albumsKeepColl (importStart fresh albums).albums
        (importFold today fresh rows albums).albums) := by
  refine ⟨?_, ?_, ?_, ?_, ?_, ?_, ?_⟩
  · intro fresh s buf ht him
    show (commitLyr fresh s).1 = _
    unfold commitLyr
    rw [ht, him]
  · intro fresh s h
    show (commitLyr fresh s).1 = _
    unfold commitLyr
    rcases h with h | h
    · rw [h]
    · rw [h]
      cases s.touchedLyrics <;> rfl
  · intro fresh s buf ht him
    show (commitVoc (commitLyr fresh s).2 s).1 = _
    unfold commitVoc
    rw [ht, him]
  · intro fresh s h
    show (commitVoc (commitLyr fresh s).2 s).1 = _
    unfold commitVoc
    rcases h with h | h
    · rw [h]
    · rw [h]
      cases s.touchedVocab <;> rfl
  · intro fresh s buf ht him
    show (commitGra (commitVoc (commitLyr fresh s).2 s).2 s).1 = _
    unfold commitGra
    rw [ht, him]
  · intro fresh s h
    show (commitGra (commitVoc (commitLyr fresh s).2 s).2 s).1 = _
    unfold commitGra
    rcases h with h | h
    · rw [h]
    · rw [h]
      cases s.touchedGrammar <;> rfl
  · intro today fresh rows albums
    unfold importFold
    exact foldl_processRow_keeps _ today _
      (fun i ab hi => ⟨ab, hi, fun j sb hj => ⟨sb, hj, rfl, rfl, rfl⟩⟩)

/-- Witness for `import_replaces_touched_keeps_untouched` on concrete songs. -/
theorem import_replaces_touched_keeps_untouched_witness :
    (commitSong 10 demoTouched).1.lyrics =
      trimLyricsTailL ((([("a", "1"), ("", "")] : List (String × String))).enum.map
        (fun p => ⟨10 + p.1, p.2.1, p.2.2⟩)) ∧
    (commitSong 10 demoUntouched).1.lyrics = demoUntouched.lyrics ∧
    (commitSong 10 demoTouched).1.vocab =
      (([("w", "z")] : List (String × String))).enum.map
        (fun p => ⟨(commitLyr 10 demoTouched).2 + p.1, p.2.1, p.2.2⟩) ∧
    (commitSong 10 demoUntouched).1.vocab = demoUntouched.vocab ∧
    (commitSong 10 demoTouched).1.grammar =
      (([("p", "e", "x")] : List (String × String × String))).enum.map
        (fun p => ⟨(commitVoc (commitLyr 10 demoTouched).2 demoTouched).2 + p.1,
          p.2.1, p.2.2.1, p.2.2.2⟩) ∧
    (commitSong 10 demoUntouched).1.grammar = demoUntouched.grammar :=
  ⟨import_replaces_touched_keeps_untouched.1 10 demoTouched _ rfl rfl,
   import_replaces_touched_keeps_untouched.2.1 10 demoUntouched (Or.inl rfl),
   import_replaces_touched_keeps_untouched.2.2.1 10 demoTouched _ rfl rfl,
   import_replaces_touched_keeps_untouched.2.2.2.1 10 demoUntouched (Or.inl rfl),
   import_replaces_touched_keeps_untouched.2.2.2.2.1 10 demoTouched _ rfl rfl,
   import_replaces_touched_keeps_untouched.2.2.2.2.2.1 10 demoUntouched (Or.inl rfl)⟩

/-- Claim C2 (counterexample): release dates are not preserved by the round
trip, even up to ids and append order.  For the one-album catalog
`cexCatalog` (album date `2015-09-07`, song date empty), exporting with all
fields and importing into an empty catalog on `2026/1/1` produces an album
dated `2026/1/1` whose song is dated `2015/9/7`. -/
theorem roundtrip_dates_not_preserved_cex :
    importAlbums "2026/1/1" 0 (exportCustom allExportCols cexCatalog) [] =
      some cexRoundOut ∧
    eraseIds cexRoundOut ≠ eraseIds cexCatalog ∧
    (cexRoundOut.headD ⟨0, "", "", "", []⟩).releaseDate = "2026/1/1" ∧
    (cexCatalog.headD ⟨0, "", "", "", []⟩).releaseDate = "2015-09-07" ∧
    ((cexRoundOut.headD ⟨0, "", "", "", []⟩).songs.headD
      ⟨0, "", "", "", "", [], [], []⟩).releaseDate = "2015/9/7" ∧
    ((cexCatalog.headD ⟨0, "", "", "", []⟩).songs.headD
      ⟨0, "", "", "", "", [], [], []⟩).releaseDate = "" := by
  refine ⟨by decide, by decide, by decide, by decide, by decide, by decide⟩

/-! ## Round-trip proof: list and record helpers -/

lemma findIdx?_append_last {α : Type} (P : List α) (x : α) (p : α → Bool)
    (hP : ∀ y ∈ P, p y = false) (hx : p x = true) :
    (P ++ [x]).findIdx? p = some P.length := by
  induction P with
  | nil => simp [hx]
  | cons a t ih =>
    rw [List.cons_append, List.findIdx?_cons, hP a (by simp)]
    simp only [Bool.false_eq_true, if_false, List.findIdx?_succ]
    rw [ih (fun y hy => hP y (by simp [hy]))]
    rfl

lemma set_append_last {α : Type} (P : List α) (x y : α) :
    (P ++ [x]).set P.length y = P ++ [y] := by
  induction P with
  | nil => rfl
  | cons a t ih => simp [List.set, ih]

lemma modifyAt_append_last {α : Type} (P : List α) (x : α) (f : α → α) :
    modifyAt (P ++ [x]) P.length f = P ++ [f x] := by
  unfold modifyAt
  rw [List.get?_concat_length]
  exact set_append_last P x (f x)

lemma lowerStr_beq_self (t : String) : (lowerStr t == lowerStr t) = true := by
  simp

lemma applyCover_cover_saturates (a : AlbumB) (cov : String) :
    applyCover (applyCover a cov) cov = applyCover a cov := by
  unfold applyCover
  split_ifs <;> rfl

lemma applyCover_saturated {A : AlbumB} {cov : String} (hsat : applyCover A cov = A)
    (X : List SongB) : applyCover { A with songs := X } cov = { A with songs := X } := by
  unfold applyCover at hsat ⊢
  by_cases h : cov = ""
  · simp [h]
  · simp only [h, ne_eq, not_false_iff, if_true] at hsat ⊢
    have hcov : A.cover = cov := by
      have := congrArg AlbumB.cover hsat
      simpa using this.symm
    rw [← hcov]

lemma applyCover_of_cover_eq {A : AlbumB} {cov : String} (h : A.cover = cov) :
    applyCover A cov = A := by
  unfold applyCover
  by_cases hc : cov = ""
  · simp [hc]
  · simp only [hc, ne_eq, not_false_iff, if_true]
    rw [← h]

lemma getAlbumIndex_found (today : String) (st : ImpState) (title : String)
    {P : List AlbumB} {A : AlbumB} (hst : st.albums = P ++ [A])
    (hP : ∀ p ∈ P, (lowerStr p.title == lowerStr title) = false)
    (hA : (lowerStr A.title == lowerStr title) = true) :
    getAlbumIndex today st title = (st, P.length) := by
  unfold getAlbumIndex
  rw [hst, findIdx?_append_last P A _ (fun y hy => hP y hy) hA]

lemma getAlbumIndex_missing (today : String) (st : ImpState) (title : String)
    (hall : ∀ p ∈ st.albums, (lowerStr p.title == lowerStr title) = false) :
    getAlbumIndex today st title =
      ({ st with
          albums := st.albums ++ [newAlbumB st.fresh title today],
          fresh := st.fresh + 1 },
        st.albums.length) := by
  unfold getAlbumIndex
  rw [List.findIdx?_eq_none_iff.mpr hall]

lemma getSongIndex_found (today : String) (st : ImpState) (title : String)
    {P : List AlbumB} {A : AlbumB} {Q : List SongB} {S : SongB}
    (hst : st.albums = P ++ [A]) (hsongs : A.songs = Q ++ [S])
    (hQ : ∀ q ∈ Q, (lowerStr q.title == lowerStr title) = false)
    (hS : (lowerStr S.title == lowerStr title) = true) :
    getSongIndex today st P.length title = (st, Q.length) := by
  unfold getSongIndex
  rw [hst, List.get?_concat_length]
  simp only [Option.map_some', Option.getD_some]
  rw [hsongs, findIdx?_append_last Q S _ (fun y hy => hQ y hy) hS]

lemma getSongIndex_missing (today : String) (st : ImpState) (title : String)
    {P : List AlbumB} {A : AlbumB} (hst : st.albums = P ++ [A])
    (hallQ : ∀ q ∈ A.songs, (lowerStr q.title == lowerStr title) = false) :
    getSongIndex today st P.length title =
      ({ st with
          albums := P ++ [{ A with songs := A.songs ++ [newSongB st.fresh title today] }],
          fresh := st.fresh + 1 },
        A.songs.length) := by
  unfold getSongIndex
  rw [hst, List.get?_concat_length]
  simp only [Option.map_some', Option.getD_some]
  rw [List.findIdx?_eq_none_iff.mpr hallQ]
  simp only [hst]
  rw [modifyAt_append_last]

/-! ## Round-trip proof: one-row state lemmas -/

lemma processRow_existing_last (col : Cols) (today : String) (r : List String)
    (st : ImpState) (P : List AlbumB) (A : AlbumB) (Q : List SongB) (S : SongB)
    (hst : st.albums = P ++ [A]) (hsongs : A.songs = Q ++ [S])
    (haTne : cellAt r col.albumTitle ≠ "") (hsTne : cellAt r col.songTitle ≠ "")
    (hP : ∀ p ∈ P, (lowerStr p.title == lowerStr (cellAt r col.albumTitle)) = false)
    (hA : (lowerStr A.title == lowerStr (cellAt r col.albumTitle)) = true)
    (hQ : ∀ q ∈ Q, (lowerStr q.title == lowerStr (cellAt r col.songTitle)) = false)
    (hS : (lowerStr S.title == lowerStr (cellAt r col.songTitle)) = true)
    (hsat : applyCover A (cellAt r col.cover) = A) :
    (processRow col today st r).albums =
      P ++ [{ A with songs := Q ++ [rowEffect col r S] }] ∧
    (processRow col today st r).fresh = st.fresh := by
  have hguard : ¬(cellAt r col.albumTitle = "" ∨ cellAt r col.songTitle = "") := by
    rintro (h | h)
    · exact haTne h
    · exact hsTne h
  have h1 : getAlbumIndex today st (cellAt r col.albumTitle) = (st, P.length) :=
    getAlbumIndex_found today st _ hst hP hA
  have h2 : getSongIndex today st P.length (cellAt r col.songTitle) = (st, Q.length) :=
    getSongIndex_found today st _ hst hsongs hQ hS
  have hin : modifyAt A.songs Q.length (fun s =>
      songRowUpdate s (normalizeDateFromAny (rawCellAt r col.releaseDate))
        (cellAt r col.lyricist) (cellAt r col.composer) (cellAt r col.kor)
        (cellAt r col.zhLyric) (cellAt r col.word) (cellAt r col.zhWord)
        (cellAt r col.pattern) (cellAt r col.explain) (cellAt r col.exampleStr)) =
      Q ++ [rowEffect col r S] := by
    rw [hsongs, modifyAt_append_last]
    rfl
  unfold processRow
  rw [if_neg (by simpa using hguard)]
  simp only [h1, h2]
  refine ⟨?_, trivial⟩
  show modifyAt st.albums P.length _ = _
  rw [hst, modifyAt_append_last]
  show P ++ [applyCover { A with songs := modifyAt A.songs Q.length _ }
    (cellAt r col.cover)] = _
  rw [hin, applyCover_saturated hsat]

lemma processRow_create_song (col : Cols) (today : String) (r : List String)
    (st : ImpState) (P : List AlbumB) (A : AlbumB)
    (hst : st.albums = P ++ [A])
    (haTne : cellAt r col.albumTitle ≠ "") (hsTne : cellAt r col.songTitle ≠ "")
    (hP : ∀ p ∈ P, (lowerStr p.title == lowerStr (cellAt r col.albumTitle)) = false)
    (hA : (lowerStr A.title == lowerStr (cellAt r col.albumTitle)) = true)
    (hQ : ∀ q ∈ A.songs, (lowerStr q.title == lowerStr (cellAt r col.songTitle)) = false)
    (hsat : applyCover A (cellAt r col.cover) = A) :
    (processRow col today st r).albums =
      P ++ [{ A with songs := A.songs ++
        [rowEffect col r (newSongB st.fresh (cellAt r col.songTitle) today)] }] ∧
    (processRow col today st r).fresh = st.fresh + 1 := by
  have hguard : ¬(cellAt r col.albumTitle = "" ∨ cellAt r col.songTitle = "") := by
    rintro (h | h)
    · exact haTne h
    · exact hsTne h
  have h1 : getAlbumIndex today st (cellAt r col.albumTitle) = (st, P.length) :=
    getAlbumIndex_found today st _ hst hP hA
  have h2 : getSongIndex today st P.length (cellAt r col.songTitle) =
      ({ st with
          albums := P ++ [{ A with songs := A.songs ++
            [newSongB st.fresh (cellAt r col.songTitle) today] }],
          fresh := st.fresh + 1 },
        A.songs.length) :=
    getSongIndex_missing today st _ hst hQ
  have hin : modifyAt (A.songs ++ [newSongB st.fresh (cellAt r col.songTitle) today])
      A.songs.length (fun s =>
      songRowUpdate s (normalizeDateFromAny (rawCellAt r col.releaseDate))
        (cellAt r col.lyricist) (cellAt r col.composer) (cellAt r col.kor)
        (cellAt r col.zhLyric) (cellAt r col.word) (cellAt r col.zhWord)
        (cellAt r col.pattern) (cellAt r col.explain) (cellAt r col.exampleStr)) =
      A.songs ++ [rowEffect col r (newSongB st.fresh (cellAt r col.songTitle) today)] := by
    rw [modifyAt_append_last]
    rfl
  unfold processRow
  rw [if_neg (by simpa using hguard)]
  simp only [h1, h2]
  refine ⟨?_, trivial⟩
  show modifyAt (P ++ [{ A with songs := A.songs ++
      [newSongB st.fresh (cellAt r col.songTitle) today] }]) P.length _ = _
  rw [modifyAt_append_last]
  show P ++ [applyCover { A with songs := modifyAt (A.songs ++
      [newSongB st.fresh (cellAt r col.songTitle) today]) A.songs.length _ }
    (cellAt r col.cover)] = _
  rw [hin, applyCover_saturated hsat]

lemma processRow_create_album (col : Cols) (today : String) (r : List String)
    (st : ImpState)
    (haTne : cellAt r col.albumTitle ≠ "") (hsTne : cellAt r col.songTitle ≠ "")
    (hall : ∀ p ∈ st.albums, (lowerStr p.title == lowerStr (cellAt r col.albumTitle)) = false) :
    (processRow col today st r).albums =
      st.albums ++ [{ newAlbumB st.fresh (cellAt r col.albumTitle) today with
        cover := cellAt r col.cover,
        songs := [rowEffect col r (newSongB (st.fresh + 1) (cellAt r col.songTitle) today)] }] ∧
    (processRow col today st r).fresh = st.fresh + 2 := by
  have hguard : ¬(cellAt r col.albumTitle = "" ∨ cellAt r col.songTitle = "") := by
    rintro (h | h)
    · exact haTne h
    · exact hsTne h
  have h1 : getAlbumIndex today st (cellAt r col.albumTitle) =
      ({ st with
          albums := st.albums ++ [newAlbumB st.fresh (cellAt r col.albumTitle) today],
          fresh := st.fresh + 1 },
        st.albums.length) :=
    getAlbumIndex_missing today st _ hall
  have h2 : getSongIndex today
      ({ st with
          albums := st.albums ++ [newAlbumB st.fresh (cellAt r col.albumTitle) today],
          fresh := st.fresh + 1 })
      st.albums.length (cellAt r col.songTitle) =
      ({ st with
          albums := st.albums ++ [{ newAlbumB st.fresh (cellAt r col.albumTitle) today with
            songs := [] ++ [newSongB (st.fresh + 1) (cellAt r col.songTitle) today] }],
          fresh := st.fresh + 1 + 1 },
        ([] : List SongB).length) := by
    exact getSongIndex_missing today _ _ rfl (by intro q hq; simp [newAlbumB] at hq)
  have hin : modifyAt ([] ++ [newSongB (st.fresh + 1) (cellAt r col.songTitle) today])
      ([] : List SongB).length (fun s =>
      songRowUpdate s (normalizeDateFromAny (rawCellAt r col.releaseDate))
        (cellAt r col.lyricist) (cellAt r col.composer) (cellAt r col.kor)
        (cellAt r col.zhLyric) (cellAt r col.word) (cellAt r col.zhWord)
        (cellAt r col.pattern) (cellAt r col.explain) (cellAt r col.exampleStr)) =
      [rowEffect col r (newSongB (st.fresh + 1) (cellAt r col.songTitle) today)] := by
    rw [modifyAt_append_last]
    rfl
  unfold processRow
  rw [if_neg (by simpa using hguard)]
  simp only [h1, h2]
  refine ⟨?_, trivial⟩
  show modifyAt (st.albums ++ [{ newAlbumB st.fresh (cellAt r col.albumTitle) today with
      songs := [] ++ [newSongB (st.fresh + 1) (cellAt r col.songTitle) today] }])
      st.albums.length _ = _
  rw [modifyAt_append_last]
  show st.albums ++ [applyCover { newAlbumB st.fresh (cellAt r col.albumTitle) today with
      songs := modifyAt ([] ++ [newSongB (st.fresh + 1) (cellAt r col.songTitle) today])
        ([] : List SongB).length _ } (cellAt r col.cover)] = _
  rw [hin]
  unfold applyCover
  by_cases hc : cellAt r col.cover = ""
  · rw [if_neg (not_not_intro hc), hc]
    rfl
  · rw [if_pos hc]

lemma rowEffect_title (col : Cols) (r : List String) (sb : SongB) :
    (rowEffect col r sb).title = sb.title := by
  unfold rowEffect
  exact (songRowUpdate_id_title sb _ _ _ _ _ _ _ _ _ _).2

lemma foldRows_existing_last (col : Cols) (today : String) (rs : List (List String))
    (st : ImpState) (P : List AlbumB) (A : AlbumB) (Q : List SongB) (S : SongB)
    (aT sT cov : String)
    (hst : st.albums = P ++ [A]) (hsongs : A.songs = Q ++ [S])
    (hrows : ∀ r ∈ rs, cellAt r col.albumTitle = aT ∧ cellAt r col.songTitle = sT ∧
      cellAt r col.cover = cov)
    (haTne : aT ≠ "") (hsTne : sT ≠ "")
    (hP : ∀ p ∈ P, (lowerStr p.title == lowerStr aT) = false)
    (hA : (lowerStr A.title == lowerStr aT) = true)
    (hQ : ∀ q ∈ Q, (lowerStr q.title == lowerStr sT) = false)
    (hS : (lowerStr S.title == lowerStr sT) = true)
    (hsat : applyCover A cov = A) :
    (rs.foldl (processRow col today) st).albums =
      P ++ [{ A with songs := Q ++ [rs.foldl (fun sb r => rowEffect col r sb) S] }] ∧
    (rs.foldl (processRow col today) st).fresh = st.fresh := by
  induction rs generalizing st A S with
  | nil =>
    refine ⟨?_, rfl⟩
    have hAeta : ({ A with songs := Q ++ [S] } : AlbumB) = A := by
      rw [← hsongs]
    rw [List.foldl_nil, List.foldl_nil, hst, hAeta]
  | cons r rest ih =>
    obtain ⟨haT, hsT, hcov⟩ := hrows r (by simp)
    have hstep := processRow_existing_last col today r st P A Q S hst hsongs
      (by rw [haT]; exact haTne) (by rw [hsT]; exact hsTne)
      (by rw [haT]; exact hP) (by rw [haT]; exact hA)
      (by rw [hsT]; exact hQ) (by rw [hsT]; exact hS)
      (by rw [hcov]; exact hsat)
    have hA' : (lowerStr ({ A with songs := Q ++ [rowEffect col r S] } : AlbumB).title ==
        lowerStr aT) = true := hA
    have hS' : (lowerStr (rowEffect col r S).title == lowerStr sT) = true := by
      rw [rowEffect_title]
      exact hS
    have hsat' : applyCover ({ A with songs := Q ++ [rowEffect col r S] } : AlbumB) cov =
        { A with songs := Q ++ [rowEffect col r S] } :=
      applyCover_saturated hsat _
    have hrest := ih (processRow col today st r)
      { A with songs := Q ++ [rowEffect col r S] } (rowEffect col r S)
      hstep.1 rfl (fun r' hr' => hrows r' (by simp [hr'])) hA' hS' hsat'
    rw [List.foldl_cons, List.foldl_cons]
    exact ⟨hrest.1, hrest.2.trans hstep.2⟩

/-! ## Round-trip proof: pure row-effect computations -/

lemma applyMeta_nonmeta (sb : SongB) (d l c : String) :
    (applyMeta sb d l c).id = sb.id ∧ (applyMeta sb d l c).title = sb.title ∧
    (applyMeta sb d l c).lyrics = sb.lyrics ∧ (applyMeta sb d l c).vocab = sb.vocab ∧
    (applyMeta sb d l c).grammar = sb.grammar ∧
    (applyMeta sb d l c).impLyrics = sb.impLyrics ∧
    (applyMeta sb d l c).impVocab = sb.impVocab ∧
    (applyMeta sb d l c).impGrammar = sb.impGrammar ∧
    (applyMeta sb d l c).touchedLyrics = sb.touchedLyrics ∧
    (applyMeta sb d l c).touchedVocab = sb.touchedVocab ∧
    (applyMeta sb d l c).touchedGrammar = sb.touchedGrammar := by
  unfold applyMeta
  split_ifs <;> simp

lemma applyMeta_idem (X : SongB) (d l c : String) :
    applyMeta (applyMeta X d l c) d l c = applyMeta X d l c := by
  unfold applyMeta
  split_ifs <;> rfl

lemma applyMeta_set_lyrbuf (X : SongB) (y : Option (List (String × String))) (b : Bool)
    (d l c : String) :
    applyMeta { X with impLyrics := y, touchedLyrics := b } d l c =
      { applyMeta X d l c with impLyrics := y, touchedLyrics := b } := by
  unfold applyMeta
  split_ifs <;> rfl

lemma applyMeta_set_vocbuf (X : SongB) (y : Option (List (String × String))) (b : Bool)
    (d l c : String) :
    applyMeta { X with impVocab := y, touchedVocab := b } d l c =
      { applyMeta X d l c with impVocab := y, touchedVocab := b } := by
  unfold applyMeta
  split_ifs <;> rfl

lemma applyMeta_set_grabuf (X : SongB) (y : Option (List (String × String × String)))
    (b : Bool) (d l c : String) :
    applyMeta { X with impGrammar := y, touchedGrammar := b } d l c =
      { applyMeta X d l c with impGrammar := y, touchedGrammar := b } := by
  unfold applyMeta
  split_ifs <;> rfl

lemma songRowUpdate_lyric (sb : SongB) (D Ly Cp k z : String) (hk : k ≠ "" ∨ z ≠ "") :
    songRowUpdate sb D Ly Cp k z "" "" "" "" "" =
      { applyMeta sb D Ly Cp with
        impLyrics := some (sb.impLyrics.getD [] ++ [(k, z)]), touchedLyrics := true } := by
  have hL : isLyricRowB k z = true := by
    rcases hk with h | h <;> simp [isLyricRowB, h]
  have hG : isGrammarRowB "" = false := by decide
  have hV : isVocabRowB "" "" "" = false := by decide
  unfold songRowUpdate
  simp only [hL, hG, hV, Bool.false_eq_true, if_false, if_true, pushOpt]
  rw [(applyMeta_nonmeta sb D Ly Cp).2.2.2.2.2.1]

lemma songRowUpdate_vocab (sb : SongB) (D Ly Cp w zw : String) (hw : w ≠ "" ∨ zw ≠ "") :
    songRowUpdate sb D Ly Cp "" "" w zw "" "" "" =
      { applyMeta sb D Ly Cp with
        impVocab := some (sb.impVocab.getD [] ++ [(w, zw)]), touchedVocab := true } := by
  have hL : isLyricRowB "" "" = false := by decide
  have hG : isGrammarRowB "" = false := by decide
  have hV : isVocabRowB w zw "" = true := by
    rcases hw with h | h <;> simp [isVocabRowB, isGrammarRowB, h]
  unfold songRowUpdate
  simp only [hL, hG, hV, Bool.false_eq_true, if_false, if_true, pushOpt]
  rw [(applyMeta_nonmeta sb D Ly Cp).2.2.2.2.2.2.1]

lemma songRowUpdate_grammar (sb : SongB) (D Ly Cp p e x : String) (hp : p ≠ "") :
    songRowUpdate sb D Ly Cp "" "" "" "" p e x =
      { applyMeta sb D Ly Cp with
        impGrammar := some (sb.impGrammar.getD [] ++ [(p, e, x)]),
        touchedGrammar := true } := by
  have hL : isLyricRowB "" "" = false := by decide
  have hG : isGrammarRowB p = true := by simp [isGrammarRowB, hp]
  have hV : isVocabRowB "" "" p = false := by simp [isVocabRowB]
  unfold songRowUpdate
  simp only [hL, hG, hV, Bool.false_eq_true, if_false, if_true, pushOpt]
  rw [(applyMeta_nonmeta sb D Ly Cp).2.2.2.2.2.2.2.1]

lemma songRowUpdate_meta (sb : SongB) (D Ly Cp : String) :
    songRowUpdate sb D Ly Cp "" "" "" "" "" "" "" = applyMeta sb D Ly Cp := by
  unfold songRowUpdate
  simp [isLyricRowB, isVocabRowB, isGrammarRowB]

lemma foldEffect_lyrics (D Ly Cp : String) (ps : List (String × String))
    (hps : ∀ p ∈ ps, p.1 ≠ "" ∨ p.2 ≠ "") (sb : SongB) (hne : ps ≠ []) :
    ps.foldl (fun sb p => songRowUpdate sb D Ly Cp p.1 p.2 "" "" "" "" "") sb =
      { applyMeta sb D Ly Cp with
        impLyrics := some (sb.impLyrics.getD [] ++ ps), touchedLyrics := true } := by
  induction ps generalizing sb with
  | nil => cases hne rfl
  | cons p ps' ih =>
    rw [List.foldl_cons, songRowUpdate_lyric sb D Ly Cp p.1 p.2 (hps p (by simp))]
    by_cases hps' : ps' = []
    · subst hps'
      rw [List.foldl_nil]
    · rw [ih (fun q hq => hps q (by simp [hq])) _ hps']
      rw [applyMeta_set_lyrbuf, applyMeta_idem]
      simp

lemma foldEffect_vocab (D Ly Cp : String) (ps : List (String × String))
    (hps : ∀ p ∈ ps, p.1 ≠ "" ∨ p.2 ≠ "") (sb : SongB) (hne : ps ≠ []) :
    ps.foldl (fun sb p => songRowUpdate sb D Ly Cp "" "" p.1 p.2 "" "" "") sb =
      { applyMeta sb D Ly Cp with
        impVocab := some (sb.impVocab.getD [] ++ ps), touchedVocab := true } := by
  induction ps generalizing sb with
  | nil => cases hne rfl
  | cons p ps' ih =>
    rw [List.foldl_cons, songRowUpdate_vocab sb D Ly Cp p.1 p.2 (hps p (by simp))]
    by_cases hps' : ps' = []
    · subst hps'
      rw [List.foldl_nil]
    · rw [ih (fun q hq => hps q (by simp [hq])) _ hps']
      rw [applyMeta_set_vocbuf, applyMeta_idem]
      simp

lemma foldEffect_grammar (D Ly Cp : String) (ps : List (String × String × String))
    (hps : ∀ p ∈ ps, p.1 ≠ "") (sb : SongB) (hne : ps ≠ []) :
    ps.foldl (fun sb p => songRowUpdate sb D Ly Cp "" "" "" "" p.1 p.2.1 p.2.2) sb =
      { applyMeta sb D Ly Cp with
        impGrammar := some (sb.impGrammar.getD [] ++ ps), touchedGrammar := true } := by
  induction ps generalizing sb with
  | nil => cases hne rfl
  | cons p ps' ih =>
    rw [List.foldl_cons, songRowUpdate_grammar sb D Ly Cp p.1 p.2.1 p.2.2 (hps p (by simp))]
    by_cases hps' : ps' = []
    · subst hps'
      rw [List.foldl_nil]
    · rw [ih (fun q hq => hps q (by simp [hq])) _ hps']
      rw [applyMeta_set_grabuf, applyMeta_idem]
      simp

lemma rowEffect_lyricRow (a : Album) (s : Song) (l : LyricLine) (sb : SongB) :
    rowEffect colsAll (allExportCols.map (lyricRowCell a s l)) sb =
      songRowUpdate sb (normalizeDateFromAny (exportDate a s))
        (stripCell s.lyricist) (stripCell s.composer) (stripCell l.kor)
        (stripCell l.zh) "" "" "" "" "" := rfl

lemma rowEffect_vocabRow (a : Album) (s : Song) (v : VocabItem) (sb : SongB) :
    rowEffect colsAll (allExportCols.map (vocabRowCell a s v)) sb =
      songRowUpdate sb (normalizeDateFromAny (exportDate a s))
        (stripCell s.lyricist) (stripCell s.composer) "" ""
        (stripCell v.word) (stripCell v.zh) "" "" "" := rfl

lemma rowEffect_grammarRow (a : Album) (s : Song) (g : GrammarPoint) (sb : SongB) :
    rowEffect colsAll (allExportCols.map (grammarRowCell a s g)) sb =
      songRowUpdate sb (normalizeDateFromAny (exportDate a s))
        (stripCell s.lyricist) (stripCell s.composer) "" "" "" ""
        (stripCell g.pattern) (stripCell g.explain) (stripCell g.exampleStr) := rfl

lemma rowEffect_metaRow (a : Album) (s : Song) (sb : SongB) :
    rowEffect colsAll (allExportCols.map (metaCell a s)) sb =
      songRowUpdate sb (normalizeDateFromAny (exportDate a s))
        (stripCell s.lyricist) (stripCell s.composer) "" "" "" "" "" "" "" := rfl

lemma foldl_congr_mem {α γ : Type} (xs : List α) (f g : γ → α → γ)
    (hp : ∀ x ∈ xs, ∀ acc, f acc x = g acc x) (init : γ) :
    xs.foldl f init = xs.foldl g init := by
  induction xs generalizing init with
  | nil => rfl
  | cons x xs' ih =>
    rw [List.foldl_cons, List.foldl_cons, hp x (by simp)]
    exact ih (fun y hy acc => hp y (by simp [hy]) acc) _

lemma applyMeta_newSongB (σ : Nat) (t today D Ly Cp : String) :
    applyMeta (newSongB σ t today) D Ly Cp =
      { id := σ, title := t, releaseDate := jsOr D today, lyricist := Ly,
        composer := Cp, lyrics := [], vocab := [], grammar := [],
        impLyrics := none, impVocab := none, impGrammar := none,
        touchedLyrics := false, touchedVocab := false, touchedGrammar := false } := by
  unfold applyMeta newSongB jsOr
  by_cases hd : D = "" <;> by_cases hl : Ly = "" <;> by_cases hc : Cp = "" <;>
    simp [hd, hl, hc]

lemma songFold_eq_buffered (today : String) (a : Album) (s : Song) (σ : Nat)
    (hwf : wfSong a s) :
    (exportSongRows allExportCols a s).foldl (fun sb r => rowEffect colsAll r sb)
      (newSongB σ s.title today) = bufferedSongB today (exportDate a s) σ s := by
  obtain ⟨hsT, hsTne, hLy, hCp, hLs, hVs, hGs⟩ := hwf
  have segL : ∀ sb : SongB,
      (s.lyrics.map (fun l => allExportCols.map (lyricRowCell a s l))).foldl
        (fun sb r => rowEffect colsAll r sb) sb =
      s.lyrics.foldl (fun sb l =>
        songRowUpdate sb (normalizeDateFromAny (exportDate a s)) s.lyricist s.composer l.kor l.zh
          "" "" "" "" "") sb := by
    intro sb
    rw [List.foldl_map]
    refine foldl_congr_mem _ _ _ ?_ sb
    intro l hl acc
    rw [rowEffect_lyricRow]
    obtain ⟨hk, hz, _⟩ := hLs l hl
    rw [hk, hz, hLy, hCp]
  have segV : ∀ sb : SongB,
      (s.vocab.map (fun v => allExportCols.map (vocabRowCell a s v))).foldl
        (fun sb r => rowEffect colsAll r sb) sb =
      s.vocab.foldl (fun sb v =>
        songRowUpdate sb (normalizeDateFromAny (exportDate a s)) s.lyricist s.composer "" "" v.word v.zh
          "" "" "") sb := by
    intro sb
    rw [List.foldl_map]
    refine foldl_congr_mem _ _ _ ?_ sb
    intro v hv acc
    rw [rowEffect_vocabRow]
    obtain ⟨hw, hz, _⟩ := hVs v hv
    rw [hw, hz, hLy, hCp]
  have segG : ∀ sb : SongB,
      (s.grammar.map (fun g => allExportCols.map (grammarRowCell a s g))).foldl
        (fun sb r => rowEffect colsAll r sb) sb =
      s.grammar.foldl (fun sb g =>
        songRowUpdate sb (normalizeDateFromAny (exportDate a s)) s.lyricist s.composer "" "" "" ""
          g.pattern g.explain g.exampleStr) sb := by
    intro sb
    rw [List.foldl_map]
    refine foldl_congr_mem _ _ _ ?_ sb
    intro g hg acc
    rw [rowEffect_grammarRow]
    obtain ⟨hp, he, hx, _⟩ := hGs g hg
    rw [hp, he, hx, hLy, hCp]
  have segL2 : s.lyrics ≠ [] → ∀ sb : SongB,
      s.lyrics.foldl (fun sb l =>
        songRowUpdate sb (normalizeDateFromAny (exportDate a s)) s.lyricist s.composer l.kor l.zh
          "" "" "" "" "") sb =
      { applyMeta sb (normalizeDateFromAny (exportDate a s)) s.lyricist s.composer with
        impLyrics := some (sb.impLyrics.getD [] ++ s.lyrics.map (fun l => (l.kor, l.zh))),
        touchedLyrics := true } := by
    intro hne sb
    have hmap : s.lyrics.foldl (fun sb l =>
        songRowUpdate sb (normalizeDateFromAny (exportDate a s)) s.lyricist s.composer l.kor l.zh
          "" "" "" "" "") sb =
      (s.lyrics.map (fun l => (l.kor, l.zh))).foldl (fun sb p =>
        songRowUpdate sb (normalizeDateFromAny (exportDate a s)) s.lyricist s.composer p.1 p.2
          "" "" "" "" "") sb := by
      rw [List.foldl_map]
    rw [hmap, foldEffect_lyrics _ _ _ _ ?_ sb ?_]
    · intro p hp
      obtain ⟨l, hl, rfl⟩ := List.mem_map.mp hp
      exact (hLs l hl).2.2
    · simpa using hne
  have segV2 : s.vocab ≠ [] → ∀ sb : SongB,
      s.vocab.foldl (fun sb v =>
        songRowUpdate sb (normalizeDateFromAny (exportDate a s)) s.lyricist s.composer "" "" v.word v.zh
          "" "" "") sb =
      { applyMeta sb (normalizeDateFromAny (exportDate a s)) s.lyricist s.composer with
        impVocab := some (sb.impVocab.getD [] ++ s.vocab.map (fun v => (v.word, v.zh))),
        touchedVocab := true } := by
    intro hne sb
    have hmap : s.vocab.foldl (fun sb v =>
        songRowUpdate sb (normalizeDateFromAny (exportDate a s)) s.lyricist s.composer "" "" v.word v.zh
          "" "" "") sb =
      (s.vocab.map (fun v => (v.word, v.zh))).foldl (fun sb p =>
        songRowUpdate sb (normalizeDateFromAny (exportDate a s)) s.lyricist s.composer "" "" p.1 p.2
          "" "" "") sb := by
      rw [List.foldl_map]
    rw [hmap, foldEffect_vocab _ _ _ _ ?_ sb ?_]
    · intro p hp
      obtain ⟨v, hv, rfl⟩ := List.mem_map.mp hp
      exact (hVs v hv).2.2
    · simpa using hne
  have segG2 : s.grammar ≠ [] → ∀ sb : SongB,
      s.grammar.foldl (fun sb g =>
        songRowUpdate sb (normalizeDateFromAny (exportDate a s)) s.lyricist s.composer "" "" "" ""
          g.pattern g.explain g.exampleStr) sb =
      { applyMeta sb (normalizeDateFromAny (exportDate a s)) s.lyricist s.composer with
        impGrammar := some (sb.impGrammar.getD [] ++
          s.grammar.map (fun g => (g.pattern, g.explain, g.exampleStr))),
        touchedGrammar := true } := by
    intro hne sb
    have hmap : s.grammar.foldl (fun sb g =>
        songRowUpdate sb (normalizeDateFromAny (exportDate a s)) s.lyricist s.composer "" "" "" ""
          g.pattern g.explain g.exampleStr) sb =
      (s.grammar.map (fun g => (g.pattern, g.explain, g.exampleStr))).foldl (fun sb p =>
        songRowUpdate sb (normalizeDateFromAny (exportDate a s)) s.lyricist s.composer "" "" "" ""
          p.1 p.2.1 p.2.2) sb := by
      rw [List.foldl_map]
    rw [hmap, foldEffect_grammar _ _ _ _ ?_ sb ?_]
    · intro p hp
      obtain ⟨g, hg, rfl⟩ := List.mem_map.mp hp
      exact (hGs g hg).2.2.2
    · simpa using hne
  unfold exportSongRows
  rw [List.foldl_append, List.foldl_append, List.foldl_append]
  by_cases hLn : s.lyrics = [] <;> by_cases hVn : s.vocab = [] <;>
    by_cases hGn : s.grammar = []
  · -- all empty: single metadata row
    rw [hLn, hVn, hGn]
    simp only [List.map_nil, List.foldl_nil, List.isEmpty_nil, Bool.and_self,
      if_true, List.foldl_cons]
    rw [rowEffect_metaRow, hLy, hCp, songRowUpdate_meta, applyMeta_newSongB]
    simp [bufferedSongB, newSongB, hLn, hVn, hGn]
  · rw [hLn, hVn]
    simp only [List.map_nil, List.foldl_nil, List.isEmpty_nil,
      List.isEmpty_eq_true, hGn, Bool.and_false, if_false, List.foldl_nil]
    rw [segG _, segG2 hGn _, applyMeta_newSongB]
    simp [bufferedSongB, newSongB, hLn, hVn, hGn]
  · rw [hLn, hGn]
    simp only [List.map_nil, List.foldl_nil, List.isEmpty_nil,
      List.isEmpty_eq_true, hVn, Bool.and_false, Bool.false_and, if_false]
    rw [segV _, segV2 hVn _, applyMeta_newSongB]
    simp [bufferedSongB, newSongB, hLn, hVn, hGn]
  · rw [hLn]
    simp only [List.map_nil, List.foldl_nil, List.isEmpty_nil,
      List.isEmpty_eq_true, hVn, hGn, Bool.and_false, Bool.false_and, if_false]
    rw [segV _, segV2 hVn _, segG _, segG2 hGn _]
    rw [applyMeta_set_vocbuf, applyMeta_idem, applyMeta_newSongB]
    simp [bufferedSongB, newSongB, hLn, hVn, hGn]
  · rw [hVn, hGn]
    simp only [List.map_nil, List.foldl_nil, List.isEmpty_nil,
      List.isEmpty_eq_true, hLn, Bool.and_false, Bool.false_and, if_false]
    rw [segL _, segL2 hLn _, applyMeta_newSongB]
    simp [bufferedSongB, newSongB, hLn, hVn, hGn]
  · rw [hVn]
    simp only [List.map_nil, List.foldl_nil, List.isEmpty_nil,
      List.isEmpty_eq_true, hLn, hGn, Bool.and_false, Bool.false_and, if_false]
    rw [segL _, segL2 hLn _, segG _, segG2 hGn _]
    rw [applyMeta_set_lyrbuf, applyMeta_idem, applyMeta_newSongB]
    simp [bufferedSongB, newSongB, hLn, hVn, hGn]
  · rw [hGn]
    simp only [List.map_nil, List.foldl_nil, List.isEmpty_nil,
      List.isEmpty_eq_true, hLn, hVn, Bool.and_false, Bool.false_and, if_false]
    rw [segL _, segL2 hLn _, segV _, segV2 hVn _]
    rw [applyMeta_set_lyrbuf, applyMeta_idem, applyMeta_newSongB]
    simp [bufferedSongB, newSongB, hLn, hVn, hGn]
  · have hL' : s.lyrics.isEmpty = false := by
      simpa [List.isEmpty_iff] using hLn
    simp only [hL', Bool.false_and, Bool.false_eq_true, if_false, List.foldl_nil]
    rw [segL _, segL2 hLn _, segV _, segV2 hVn _, segG _, segG2 hGn _]
    rw [applyMeta_set_lyrbuf, applyMeta_idem]
    rw [applyMeta_set_vocbuf]
    rw [applyMeta_set_lyrbuf, applyMeta_idem, applyMeta_newSongB]
    simp [bufferedSongB, newSongB, hLn, hVn, hGn]

lemma exportSongRows_cells (a : Album) (s : Song) :
    ∀ r ∈ exportSongRows allExportCols a s,
      cellAt r colsAll.albumTitle = stripCell a.title ∧
      cellAt r colsAll.songTitle = stripCell s.title ∧
      cellAt r colsAll.cover = stripCell a.cover := by
  intro r hr
  unfold exportSongRows at hr
  rw [List.mem_append] at hr
  rcases hr with hr | hr
  · rw [List.mem_append] at hr
    rcases hr with hr | hr
    · rw [List.mem_append] at hr
      rcases hr with hr | hr
      · obtain ⟨l, _, rfl⟩ := List.mem_map.mp hr
        exact ⟨rfl, rfl, rfl⟩
      · obtain ⟨v, _, rfl⟩ := List.mem_map.mp hr
        exact ⟨rfl, rfl, rfl⟩
    · obtain ⟨g, _, rfl⟩ := List.mem_map.mp hr
      exact ⟨rfl, rfl, rfl⟩
  · by_cases hc : (s.lyrics.isEmpty && s.vocab.isEmpty && s.grammar.isEmpty) = true
    · rw [if_pos hc] at hr
      rw [List.mem_singleton.mp hr]
      exact ⟨rfl, rfl, rfl⟩
    · rw [if_neg hc] at hr
      simp at hr

lemma exportSongRows_ne_nil (a : Album) (s : Song) :
    exportSongRows allExportCols a s ≠ [] := by
  unfold exportSongRows
  intro h
  rcases List.append_eq_nil.mp h with ⟨h123, h4⟩
  rcases List.append_eq_nil.mp h123 with ⟨h12, h3⟩
  rcases List.append_eq_nil.mp h12 with ⟨h1, h2⟩
  rw [List.map_eq_nil] at h1 h2 h3
  rw [h1, h2, h3] at h4
  simp at h4

lemma foldRows_new_song (today : String) (a : Album) (s : Song) (st : ImpState)
    (P : List AlbumB) (A : AlbumB)
    (hst : st.albums = P ++ [A])
    (haT : trimStable a.title) (haTne : a.title ≠ "") (hcov : trimStable a.cover)
    (hwfS : wfSong a s)
    (hP : ∀ p ∈ P, (lowerStr p.title == lowerStr a.title) = false)
    (hA : (lowerStr A.title == lowerStr a.title) = true)
    (hQall : ∀ q ∈ A.songs, (lowerStr q.title == lowerStr s.title) = false)
    (hsat : applyCover A a.cover = A) :
    ((exportSongRows allExportCols a s).foldl (processRow colsAll today) st).albums =
      P ++ [{ A with songs := A.songs ++
        [bufferedSongB today (exportDate a s) st.fresh s] }] ∧
    ((exportSongRows allExportCols a s).foldl (processRow colsAll today) st).fresh =
      st.fresh + 1 := by
  have hsT : trimStable s.title := hwfS.1
  have hsTne : s.title ≠ "" := hwfS.2.1
  have hcells : ∀ r ∈ exportSongRows allExportCols a s,
      cellAt r colsAll.albumTitle = a.title ∧ cellAt r colsAll.songTitle = s.title ∧
      cellAt r colsAll.cover = a.cover := by
    intro r hr
    obtain ⟨h1, h2, h3⟩ := exportSongRows_cells a s r hr
    exact ⟨h1.trans haT, h2.trans hsT, h3.trans hcov⟩
  obtain ⟨r₀, rest, hsplit⟩ : ∃ r₀ rest, exportSongRows allExportCols a s = r₀ :: rest := by
    cases h : exportSongRows allExportCols a s with
    | nil => exact absurd h (exportSongRows_ne_nil a s)
    | cons x xs => exact ⟨x, xs, rfl⟩
  obtain ⟨haT₀, hsT₀, hcov₀⟩ := hcells r₀ (by rw [hsplit]; simp)
  have hstep := processRow_create_song colsAll today r₀ st P A hst
    (by rw [haT₀]; exact haTne) (by rw [hsT₀]; exact hsTne)
    (by rw [haT₀]; exact hP) (by rw [haT₀]; exact hA)
    (by rw [hsT₀]; exact hQall)
    (by rw [hcov₀]; exact hsat)
  have hS₁title : (rowEffect colsAll r₀ (newSongB st.fresh (cellAt r₀ colsAll.songTitle)
      today)).title = s.title := by
    rw [rowEffect_title]
    show (newSongB st.fresh (cellAt r₀ colsAll.songTitle) today).title = s.title
    rw [hsT₀]
    rfl
  have hrest := foldRows_existing_last colsAll today rest (processRow colsAll today st r₀)
    P { A with songs := A.songs ++
      [rowEffect colsAll r₀ (newSongB st.fresh (cellAt r₀ colsAll.songTitle) today)] }
    A.songs (rowEffect colsAll r₀ (newSongB st.fresh (cellAt r₀ colsAll.songTitle) today))
    a.title s.title a.cover
    hstep.1 rfl
    (fun r hr => hcells r (by rw [hsplit]; simp [hr]))
    haTne hsTne hP hA hQall
    (by rw [hS₁title]; simp) (applyCover_saturated hsat _)
  rw [hsplit, List.foldl_cons]
  have hfoldsong : rest.foldl (fun sb r => rowEffect colsAll r sb)
      (rowEffect colsAll r₀ (newSongB st.fresh (cellAt r₀ colsAll.songTitle) today)) =
      bufferedSongB today (exportDate a s) st.fresh s := by
    have : rest.foldl (fun sb r => rowEffect colsAll r sb)
        (rowEffect colsAll r₀ (newSongB st.fresh (cellAt r₀ colsAll.songTitle) today)) =
        (r₀ :: rest).foldl (fun sb r => rowEffect colsAll r sb)
          (newSongB st.fresh (cellAt r₀ colsAll.songTitle) today) := by
      rw [List.foldl_cons]
    rw [this, hsT₀, ← hsplit]
    exact songFold_eq_buffered today a s st.fresh hwfS
  rw [hfoldsong] at hrest
  exact ⟨hrest.1, hrest.2.trans hstep.2⟩

lemma beq_false_of_ne {a b : String} (h : a ≠ b) : (a == b) = false :=
  beq_eq_false_iff_ne.mpr h

lemma foldRows_songs (today : String) (a : Album) (ss : List Song) (st : ImpState)
    (P : List AlbumB) (A : AlbumB)
    (hst : st.albums = P ++ [A])
    (haT : trimStable a.title) (haTne : a.title ≠ "") (hcov : trimStable a.cover)
    (hwfS : ∀ s ∈ ss, wfSong a s)
    (hP : ∀ p ∈ P, (lowerStr p.title == lowerStr a.title) = false)
    (hA : (lowerStr A.title == lowerStr a.title) = true)
    (hdist : ∀ s ∈ ss, ∀ q ∈ A.songs, (lowerStr q.title == lowerStr s.title) = false)
    (hpair : ss.Pairwise (fun s t => lowerStr s.title ≠ lowerStr t.title))
    (hsat : applyCover A a.cover = A) :
    (((ss.map (exportSongRows allExportCols a)).flatten).foldl
        (processRow colsAll today) st).albums =
      P ++ [{ A with songs := A.songs ++ songsOutB today a st.fresh ss }] ∧
    (((ss.map (exportSongRows allExportCols a)).flatten).foldl
        (processRow colsAll today) st).fresh = st.fresh + ss.length := by
  induction ss generalizing st A with
  | nil =>
    refine ⟨?_, rfl⟩
    rw [List.map_nil, List.flatten_nil, List.foldl_nil, hst]
    have : ({ A with songs := A.songs ++ songsOutB today a st.fresh [] } : AlbumB) = A := by
      show ({ A with songs := A.songs ++ [] } : AlbumB) = A
      rw [List.append_nil]
    rw [this]
  | cons s rest ih =>
    rw [List.map_cons, List.flatten_cons, List.foldl_append]
    have hstep := foldRows_new_song today a s st P A hst haT haTne hcov
      (hwfS s (by simp)) hP hA (hdist s (by simp)) hsat
    have hdist' : ∀ s' ∈ rest,
        ∀ q ∈ ({ A with songs := A.songs ++
          [bufferedSongB today (exportDate a s) st.fresh s] } : AlbumB).songs,
        (lowerStr q.title == lowerStr s'.title) = false := by
      intro s' hs' q hq
      rw [List.mem_append] at hq
      rcases hq with hq | hq
      · exact hdist s' (by simp [hs']) q hq
      · rw [List.mem_singleton.mp hq]
        show (lowerStr s.title == lowerStr s'.title) = false
        exact beq_false_of_ne ((List.pairwise_cons.mp hpair).1 s' hs')
    have hrest := ih (((exportSongRows allExportCols a s).foldl
        (processRow colsAll today) st))
      { A with songs := A.songs ++ [bufferedSongB today (exportDate a s) st.fresh s] }
      hstep.1 (fun s' hs' => hwfS s' (by simp [hs'])) hA hdist'
      (List.pairwise_cons.mp hpair).2 (applyCover_saturated hsat _)
    refine ⟨?_, ?_⟩
    · rw [hrest.1, hstep.2]
      show P ++ [({ A with songs := (A.songs ++ [_]) ++ _ } : AlbumB)] = _
      rw [List.append_assoc]
      rfl
    · rw [hrest.2, hstep.2]
      show st.fresh + 1 + rest.length = st.fresh + (rest.length + 1)
      omega

lemma foldRows_album (today : String) (a : Album) (st : ImpState)
    (hwfA : wfAlbum a)
    (hall : ∀ p ∈ st.albums, (lowerStr p.title == lowerStr a.title) = false) :
    ((albumRows a).foldl (processRow colsAll today) st).albums =
      st.albums ++ [albumOutB today st.fresh a] ∧
    ((albumRows a).foldl (processRow colsAll today) st).fresh =
      st.fresh + 1 + a.songs.length := by
  obtain ⟨haT, haTne, hcov, hne, hwfS, hpair⟩ := hwfA
  obtain ⟨s₀, srest, hsongs⟩ : ∃ s₀ srest, a.songs = s₀ :: srest := by
    cases h : a.songs with
    | nil => exact absurd h hne
    | cons x xs => exact ⟨x, xs, rfl⟩
  have hwfS₀ : wfSong a s₀ := hwfS s₀ (by rw [hsongs]; simp)
  have hcells : ∀ r ∈ exportSongRows allExportCols a s₀,
      cellAt r colsAll.albumTitle = a.title ∧ cellAt r colsAll.songTitle = s₀.title ∧
      cellAt r colsAll.cover = a.cover := by
    intro r hr
    obtain ⟨h1, h2, h3⟩ := exportSongRows_cells a s₀ r hr
    exact ⟨h1.trans haT, h2.trans hwfS₀.1, h3.trans hcov⟩
  obtain ⟨r₀, rest₀, hsplit⟩ : ∃ r₀ rest₀,
      exportSongRows allExportCols a s₀ = r₀ :: rest₀ := by
    cases h : exportSongRows allExportCols a s₀ with
    | nil => exact absurd h (exportSongRows_ne_nil a s₀)
    | cons x xs => exact ⟨x, xs, rfl⟩
  obtain ⟨haT₀, hsT₀, hcov₀⟩ := hcells r₀ (by rw [hsplit]; simp)
  have hrows : albumRows a =
      (r₀ :: rest₀) ++ ((srest.map (exportSongRows allExportCols a)).flatten) := by
    unfold albumRows
    rw [hsongs, List.map_cons, List.flatten_cons, hsplit]
  have hstep := processRow_create_album colsAll today r₀ st
    (by rw [haT₀]; exact haTne) (by rw [hsT₀]; exact hwfS₀.2.1)
    (by rw [haT₀]; exact hall)
  have hA₀ : ({ newAlbumB st.fresh (cellAt r₀ colsAll.albumTitle) today with
      cover := cellAt r₀ colsAll.cover,
      songs := [rowEffect colsAll r₀
        (newSongB (st.fresh + 1) (cellAt r₀ colsAll.songTitle) today)] } : AlbumB) =
      { id := st.fresh, title := a.title, releaseDate := today, cover := a.cover,
        songs := [rowEffect colsAll r₀ (newSongB (st.fresh + 1) s₀.title today)] } := by
    rw [haT₀, hsT₀, hcov₀]
    rfl
  have hS₁title : (rowEffect colsAll r₀ (newSongB (st.fresh + 1) s₀.title today)).title =
      s₀.title := by
    rw [rowEffect_title]
    rfl
  have hsong₀ := foldRows_existing_last colsAll today rest₀
    (processRow colsAll today st r₀) st.albums
    ({ id := st.fresh, title := a.title, releaseDate := today, cover := a.cover,
       songs := [rowEffect colsAll r₀ (newSongB (st.fresh + 1) s₀.title today)] } : AlbumB)
    [] (rowEffect colsAll r₀ (newSongB (st.fresh + 1) s₀.title today))
    a.title s₀.title a.cover
    (by rw [hstep.1, hA₀]) rfl
    (fun r hr => hcells r (by rw [hsplit]; simp [hr]))
    haTne hwfS₀.2.1 hall (by simp) (by intro q hq; simp at hq)
    (by rw [hS₁title]; simp)
    (applyCover_of_cover_eq rfl)
  have hfoldsong : rest₀.foldl (fun sb r => rowEffect colsAll r sb)
      (rowEffect colsAll r₀ (newSongB (st.fresh + 1) s₀.title today)) =
      bufferedSongB today (exportDate a s₀) (st.fresh + 1) s₀ := by
    have h1 : rest₀.foldl (fun sb r => rowEffect colsAll r sb)
        (rowEffect colsAll r₀ (newSongB (st.fresh + 1) s₀.title today)) =
        (r₀ :: rest₀).foldl (fun sb r => rowEffect colsAll r sb)
          (newSongB (st.fresh + 1) s₀.title today) := by
      rw [List.foldl_cons]
    rw [h1, ← hsplit]
    exact songFold_eq_buffered today a s₀ (st.fresh + 1) hwfS₀
  rw [hfoldsong] at hsong₀
  have hpairrest : srest.Pairwise (fun s t => lowerStr s.title ≠ lowerStr t.title) :=
    (List.pairwise_cons.mp (hsongs ▸ hpair)).2
  have hdist : ∀ s' ∈ srest,
      ∀ q ∈ ([] : List SongB) ++ [bufferedSongB today (exportDate a s₀) (st.fresh + 1) s₀],
      (lowerStr q.title == lowerStr s'.title) = false := by
    intro s' hs' q hq
    simp only [List.nil_append, List.mem_singleton] at hq
    rw [hq]
    show (lowerStr s₀.title == lowerStr s'.title) = false
    exact beq_false_of_ne ((List.pairwise_cons.mp (hsongs ▸ hpair)).1 s' hs')
  have hrest := foldRows_songs today a srest
    (rest₀.foldl (processRow colsAll today) (processRow colsAll today st r₀))
    st.albums
    ({ id := st.fresh, title := a.title, releaseDate := today, cover := a.cover,
       songs := [] ++ [bufferedSongB today (exportDate a s₀) (st.fresh + 1) s₀] } : AlbumB)
    hsong₀.1 haT haTne hcov
    (fun s' hs' => hwfS s' (by rw [hsongs]; simp [hs']))
    hall (by simp) hdist hpairrest
    (applyCover_of_cover_eq rfl)
  have hfr : (rest₀.foldl (processRow colsAll today)
      (processRow colsAll today st r₀)).fresh = st.fresh + 2 := by
    rw [hsong₀.2, hstep.2]
  rw [hrows]
  constructor
  · rw [List.cons_append, List.foldl_cons, List.foldl_append]
    rw [hrest.1, hfr]
    unfold albumOutB
    rw [hsongs]
    rfl
  · rw [List.cons_append, List.foldl_cons, List.foldl_append]
    rw [hrest.2, hfr]
    rw [hsongs]
    show st.fresh + 2 + srest.length = st.fresh + 1 + (srest.length + 1)
    omega

lemma foldRows_catalog (today : String) (cs : List Album) (st : ImpState)
    (hwf : ∀ a ∈ cs, wfAlbum a)
    (hpair : cs.Pairwise (fun a b => lowerStr a.title ≠ lowerStr b.title))
    (hall : ∀ a ∈ cs, ∀ p ∈ st.albums, (lowerStr p.title == lowerStr a.title) = false) :
    (((cs.map albumRows).flatten).foldl (processRow colsAll today) st).albums =
      st.albums ++ albumsOutB today st.fresh cs := by
  induction cs generalizing st with
  | nil =>
    rw [List.map_nil, List.flatten_nil, List.foldl_nil]
    show st.albums = st.albums ++ []
    rw [List.append_nil]
  | cons a rest ih =>
    rw [List.map_cons, List.flatten_cons, List.foldl_append]
    have hstep := foldRows_album today a st (hwf a (by simp)) (hall a (by simp))
    have hall' : ∀ a' ∈ rest,
        ∀ p ∈ ((albumRows a).foldl (processRow colsAll today) st).albums,
        (lowerStr p.title == lowerStr a'.title) = false := by
      intro a' ha' p hp
      rw [hstep.1, List.mem_append] at hp
      rcases hp with hp | hp
      · exact hall a' (by simp [ha']) p hp
      · rw [List.mem_singleton.mp hp]
        show (lowerStr a.title == lowerStr a'.title) = false
        exact beq_false_of_ne ((List.pairwise_cons.mp hpair).1 a' ha')
    have hrest := ih ((albumRows a).foldl (processRow colsAll today) st)
      (fun a' ha' => hwf a' (by simp [ha'])) (List.pairwise_cons.mp hpair).2 hall'
    rw [hrest, hstep.1, hstep.2]
    rw [List.append_assoc]
    rfl

lemma removeFirst_length (c : Char) (xs : List Char) :
    removeFirst c xs = xs ∨ (removeFirst c xs).length + 1 = xs.length := by
  induction xs with
  | nil => exact Or.inl rfl
  | cons x t ih =>
    unfold removeFirst
    by_cases hx : x = c
    · rw [if_pos hx]
      right
      simp
    · rw [if_neg hx]
      rcases ih with h | h
      · left
        rw [h]
      · right
        simp only [List.length_cons]
        omega

lemma jsTrimList_length_le (xs : List Char) : (jsTrimList xs).length ≤ xs.length := by
  unfold jsTrimList
  rw [List.length_reverse]
  calc ((xs.dropWhile Char.isWhitespace).reverse.dropWhile Char.isWhitespace).length
      ≤ (xs.dropWhile Char.isWhitespace).reverse.length :=
        (List.dropWhile_sublist _).length_le
    _ = (xs.dropWhile Char.isWhitespace).length := List.length_reverse _
    _ ≤ xs.length := (List.dropWhile_sublist _).length_le

lemma trimStable_toList {s : String} (h : trimStable s) :
    jsTrimList s.toList = s.toList := by
  unfold trimStable stripCell at h
  have hl : jsTrimList (removeFirst bomChar s.toList) = s.toList := congrArg String.data h
  have hrm : removeFirst bomChar s.toList = s.toList := by
    rcases removeFirst_length bomChar s.toList with h1 | h1
    · exact h1
    · exfalso
      have h2 := jsTrimList_length_le (removeFirst bomChar s.toList)
      rw [hl] at h2
      omega
  rw [hrm] at hl
  exact hl

lemma jsTrim_of_trimStable {s : String} (h : trimStable s) : jsTrim s = s := by
  unfold jsTrim
  rw [trimStable_toList h]
  rfl

lemma trimLyricsTailL_noop {rows : List LyricLine} (h : ∀ l ∈ rows, wfLine l) :
    trimLyricsTailL rows = rows := by
  unfold trimLyricsTailL
  have hdw : rows.reverse.dropWhile (fun l => jsTrim l.kor == "" && jsTrim l.zh == "")
      = rows.reverse := by
    cases hr : rows.reverse with
    | nil => rfl
    | cons x t =>
      rw [List.dropWhile_cons]
      have hx : x ∈ rows := by
        have hx0 : x ∈ rows.reverse := by
          rw [hr]
          simp
        simpa using hx0
      obtain ⟨hk, hz, hne⟩ := h x hx
      have hpred : (jsTrim x.kor == "" && jsTrim x.zh == "") = false := by
        rw [jsTrim_of_trimStable hk, jsTrim_of_trimStable hz]
        rcases hne with hne | hne
        · simp [hne]
        · simp [hne]
      rw [hpred]
      simp
  rw [hdw, List.reverse_reverse]

lemma buildLyr_erase (xs : List LyricLine) (n fresh : Nat) :
    (((xs.map (fun l => (l.kor, l.zh))).enumFrom n).map
      (fun p => ({ id := fresh + p.1, kor := p.2.1, zh := p.2.2 } : LyricLine))).map eraseLine
    = xs.map eraseLine := by
  induction xs generalizing n with
  | nil => rfl
  | cons x t ih =>
    simp only [List.map_cons, List.enumFrom_cons]
    rw [ih (n + 1)]
    rfl

lemma buildLyr_wf (xs : List LyricLine) (n fresh : Nat) (h : ∀ l ∈ xs, wfLine l) :
    ∀ l ∈ ((xs.map (fun l => (l.kor, l.zh))).enumFrom n).map
      (fun p => ({ id := fresh + p.1, kor := p.2.1, zh := p.2.2 } : LyricLine)), wfLine l := by
  induction xs generalizing n with
  | nil =>
    intro l hl
    simp at hl
  | cons x t ih =>
    intro l hl
    simp only [List.map_cons, List.enumFrom_cons, List.mem_cons] at hl
    rcases hl with hl | hl
    · rw [hl]
      exact h x (by simp)
    · exact ih (n + 1) (fun l' hl' => h l' (by simp [hl'])) l hl

lemma buildVoc_erase (xs : List VocabItem) (n fresh : Nat) :
    (((xs.map (fun v => (v.word, v.zh))).enumFrom n).map
      (fun p => ({ id := fresh + p.1, word := p.2.1, zh := p.2.2 } : VocabItem))).map eraseVocab
    = xs.map eraseVocab := by
  induction xs generalizing n with
  | nil => rfl
  | cons x t ih =>
    simp only [List.map_cons, List.enumFrom_cons]
    rw [ih (n + 1)]
    rfl

lemma buildGra_erase (xs : List GrammarPoint) (n fresh : Nat) :
    (((xs.map (fun g => (g.pattern, g.explain, g.exampleStr))).enumFrom n).map
      (fun p => ({ id := fresh + p.1, pattern := p.2.1, explain := p.2.2.1,
                   exampleStr := p.2.2.2 } : GrammarPoint))).map eraseGrammar
    = xs.map eraseGrammar := by
  induction xs generalizing n with
  | nil => rfl
  | cons x t ih =>
    simp only [List.map_cons, List.enumFrom_cons]
    rw [ih (n + 1)]
    rfl

lemma commitLyr_buffered_erase (today D : String) (σ fresh : Nat) (s : Song)
    (hl : ∀ l ∈ s.lyrics, wfLine l) :
    ((commitLyr fresh (bufferedSongB today D σ s)).1).map eraseLine
      = s.lyrics.map eraseLine := by
  by_cases hE : s.lyrics.isEmpty = true
  · have hnil : s.lyrics = [] := List.isEmpty_iff.mp hE
    simp [commitLyr, bufferedSongB, hE, hnil]
  · have hE' : s.lyrics.isEmpty = false := by simpa using hE
    simp only [commitLyr, bufferedSongB, hE', Bool.not_false, Bool.false_eq_true, if_false]
    have henum : ∀ (l : List (String × String)), l.enum = l.enumFrom 0 := fun _ => rfl
    rw [henum]
    rw [trimLyricsTailL_noop (buildLyr_wf s.lyrics 0 fresh hl)]
    exact buildLyr_erase s.lyrics 0 fresh

lemma commitVoc_buffered_erase (today D : String) (σ fresh : Nat) (s : Song) :
    ((commitVoc fresh (bufferedSongB today D σ s)).1).map eraseVocab
      = s.vocab.map eraseVocab := by
  by_cases hE : s.vocab.isEmpty = true
  · have hnil : s.vocab = [] := List.isEmpty_iff.mp hE
    simp [commitVoc, bufferedSongB, hE, hnil]
  · have hE' : s.vocab.isEmpty = false := by simpa using hE
    simp only [commitVoc, bufferedSongB, hE', Bool.not_false, Bool.false_eq_true, if_false]
    have henum : ∀ (l : List (String × String)), l.enum = l.enumFrom 0 := fun _ => rfl
    rw [henum]
    exact buildVoc_erase s.vocab 0 fresh

lemma commitGra_buffered_erase (today D : String) (σ fresh : Nat) (s : Song) :
    ((commitGra fresh (bufferedSongB today D σ s)).1).map eraseGrammar
      = s.grammar.map eraseGrammar := by
  by_cases hE : s.grammar.isEmpty = true
  · have hnil : s.grammar = [] := List.isEmpty_iff.mp hE
    simp [commitGra, bufferedSongB, hE, hnil]
  · have hE' : s.grammar.isEmpty = false := by simpa using hE
    simp only [commitGra, bufferedSongB, hE', Bool.not_false, Bool.false_eq_true, if_false]
    have henum : ∀ (l : List (String × String × String)), l.enum = l.enumFrom 0 := fun _ => rfl
    rw [henum]
    exact buildGra_erase s.grammar 0 fresh

lemma commitSong_fields (fresh : Nat) (sb : SongB) :
    (commitSong fresh sb).1 =
      { id := sb.id, title := sb.title, releaseDate := sb.releaseDate,
        lyricist := sb.lyricist, composer := sb.composer,
        lyrics := (commitLyr fresh sb).1,
        vocab := (commitVoc (commitLyr fresh sb).2 sb).1,
        grammar := (commitGra (commitVoc (commitLyr fresh sb).2 sb).2 sb).1 } := rfl

lemma eraseSongIds_fields (s : Song) :
    eraseSongIds s =
      { id := 0, title := s.title, releaseDate := s.releaseDate,
        lyricist := s.lyricist, composer := s.composer,
        lyrics := s.lyrics.map eraseLine, vocab := s.vocab.map eraseVocab,
        grammar := s.grammar.map eraseGrammar } := rfl

lemma bufferedSongB_title (today D : String) (σ : Nat) (s : Song) :
    (bufferedSongB today D σ s).title = s.title := rfl

lemma bufferedSongB_releaseDate (today D : String) (σ : Nat) (s : Song) :
    (bufferedSongB today D σ s).releaseDate = jsOr (normalizeDateFromAny D) today := rfl

lemma bufferedSongB_lyricist (today D : String) (σ : Nat) (s : Song) :
    (bufferedSongB today D σ s).lyricist = s.lyricist := rfl

lemma bufferedSongB_composer (today D : String) (σ : Nat) (s : Song) :
    (bufferedSongB today D σ s).composer = s.composer := rfl

lemma songsOutB_nil (today : String) (a : Album) (σ : Nat) :
    songsOutB today a σ [] = [] := rfl

lemma commitSongs_fst_nil (fresh : Nat) : (commitSongs fresh []).1 = [] := rfl

lemma albumsOutB_nil (today : String) (σ : Nat) : albumsOutB today σ [] = [] := rfl

lemma commitAlbums_fst_nil (fresh : Nat) : (commitAlbums fresh []).1 = [] := rfl

lemma songsOutB_cons (today : String) (a : Album) (σ : Nat) (s : Song) (rest : List Song) :
    songsOutB today a σ (s :: rest) =
      bufferedSongB today (exportDate a s) σ s :: songsOutB today a (σ + 1) rest := rfl

lemma commitSongs_fst_cons (fresh : Nat) (x : SongB) (rest : List SongB) :
    (commitSongs fresh (x :: rest)).1 =
      (commitSong fresh x).1 :: (commitSongs (commitSong fresh x).2 rest).1 := rfl

lemma albumsOutB_cons (today : String) (σ : Nat) (a : Album) (rest : List Album) :
    albumsOutB today σ (a :: rest) =
      albumOutB today σ a :: albumsOutB today (σ + 1 + a.songs.length) rest := rfl

lemma commitAlbums_fst_cons (fresh : Nat) (x : AlbumB) (rest : List AlbumB) :
    (commitAlbums fresh (x :: rest)).1 =
      ({ id := x.id, title := x.title, releaseDate := x.releaseDate, cover := x.cover,
         songs := (commitSongs fresh x.songs).1 } : Album) ::
        (commitAlbums (commitSongs fresh x.songs).2 rest).1 := rfl

lemma eraseAlbumIds_fields (a : Album) :
    eraseAlbumIds a =
      { id := 0, title := a.title, releaseDate := a.releaseDate,
        cover := a.cover, songs := a.songs.map eraseSongIds } := rfl

lemma albumOutB_title (today : String) (σ : Nat) (a : Album) :
    (albumOutB today σ a).title = a.title := rfl

lemma albumOutB_releaseDate (today : String) (σ : Nat) (a : Album) :
    (albumOutB today σ a).releaseDate = today := rfl

lemma albumOutB_cover (today : String) (σ : Nat) (a : Album) :
    (albumOutB today σ a).cover = a.cover := rfl

lemma albumOutB_songs (today : String) (σ : Nat) (a : Album) :
    (albumOutB today σ a).songs = songsOutB today a (σ + 1) a.songs := rfl

lemma commitSong_roundSong (today : String) (a : Album) (s : Song) (σ fresh : Nat)
    (hl : ∀ l ∈ s.lyrics, wfLine l) :
    eraseSongIds (commitSong fresh (bufferedSongB today (exportDate a s) σ s)).1
      = roundSong today a s := by
  have h1 := commitLyr_buffered_erase today (exportDate a s) σ fresh s hl
  have h2 := commitVoc_buffered_erase today (exportDate a s) σ
    (commitLyr fresh (bufferedSongB today (exportDate a s) σ s)).2 s
  have h3 := commitGra_buffered_erase today (exportDate a s) σ
    (commitVoc (commitLyr fresh (bufferedSongB today (exportDate a s) σ s)).2
      (bufferedSongB today (exportDate a s) σ s)).2 s
  rw [commitSong_fields, eraseSongIds_fields]
  simp only [bufferedSongB_title, bufferedSongB_releaseDate, bufferedSongB_lyricist,
    bufferedSongB_composer, h1, h2, h3, roundSong]
  rfl

lemma commitSongs_songsOutB (today : String) (a : Album) (ss : List Song) (σ fresh : Nat)
    (h : ∀ s ∈ ss, ∀ l ∈ s.lyrics, wfLine l) :
    ((commitSongs fresh (songsOutB today a σ ss)).1).map eraseSongIds
      = ss.map (roundSong today a) := by
  induction ss generalizing σ fresh with
  | nil => rw [songsOutB_nil, commitSongs_fst_nil, List.map_nil, List.map_nil]
  | cons s rest ih =>
    rw [songsOutB_cons, commitSongs_fst_cons, List.map_cons, List.map_cons,
      commitSong_roundSong today a s σ fresh (h s (by simp)),
      ih (σ + 1) (commitSong fresh (bufferedSongB today (exportDate a s) σ s)).2
        (fun s' hs' => h s' (by simp [hs']))]

lemma commitAlbums_albumsOutB (today : String) (cs : List Album) (σ fresh : Nat)
    (h : ∀ a ∈ cs, ∀ s ∈ a.songs, ∀ l ∈ s.lyrics, wfLine l) :
    ((commitAlbums fresh (albumsOutB today σ cs)).1).map eraseAlbumIds
      = cs.map (roundAlbum today) := by
  induction cs generalizing σ fresh with
  | nil => rw [albumsOutB_nil, commitAlbums_fst_nil, List.map_nil, List.map_nil]
  | cons a rest ih =>
    rw [albumsOutB_cons, commitAlbums_fst_cons, List.map_cons, List.map_cons,
      eraseAlbumIds_fields]
    simp only [albumOutB_title, albumOutB_releaseDate, albumOutB_cover, albumOutB_songs]
    rw [commitSongs_songsOutB today a a.songs (σ + 1) fresh (h a (by simp)),
      ih (σ + 1 + a.songs.length)
        (commitSongs fresh (songsOutB today a (σ + 1) a.songs)).2
        (fun a' ha' => h a' (by simp [ha']))]
    rfl

lemma importCols_export (c : List Album) :
    importCols (exportCustom allExportCols c) = colsAll := by
  show resolveCols (((allExportCols.map exportFieldLabel).map stripCell).map normalizeHeader)
    = colsAll
  decide

/-- Claim C2 (amended): exporting a catalog with every field selected and
then importing the file back into an empty catalog reproduces it up to
the opaque `uid()` identifiers, for catalogs whose cell texts are
trim-stable, whose album and per-album song titles are non-empty and
pairwise case-insensitively distinct, whose albums each hold at least one
song, whose lyric/vocab rows are not fully blank, and whose grammar entries
carry a pattern — except for the release dates: every song's release date
becomes `normalizeDateFromAny` of the exported slash-normalised value
`normalizeDateSlash(s.releaseDate || a.releaseDate || "")` (the importer
re-normalizes the cell, so e.g. a bare four-digit year is epoch-converted
on the way back in), falling back to the import-day `today()` when empty,
and every album's release date is reset to `today()`, since no album-date
column is exported. -/
theorem export_import_roundtrip (today : String) (fresh : Nat) (c : List Album)
    (hwf : wfCatalog c) :
    (importAlbums today fresh (exportCustom allExportCols c) []).map eraseIds
      = some (c.map (roundAlbum today)) := by
  obtain ⟨hwfA, hpair⟩ := hwf
  have hcols : importCols (exportCustom allExportCols c) = colsAll := importCols_export c
  have hbody : (exportCustom allExportCols c).drop 1 = (c.map albumRows).flatten := rfl
  have hall : ∀ a ∈ c, ∀ p ∈ (importStart fresh ([] : List Album)).albums,
      (lowerStr p.title == lowerStr a.title) = false := by
    intro a ha p hp
    simp [importStart] at hp
  have hcat := foldRows_catalog today c (importStart fresh []) hwfA hpair hall
  have hfoldA : (importFold today fresh (exportCustom allExportCols c) []).albums
      = albumsOutB today fresh c := by
    unfold importFold
    rw [hcols, hbody, hcat]
    simp [importStart]
  have hgrid : importGrid today fresh (exportCustom allExportCols c) []
      = Except.ok
          ((commitAlbums (importFold today fresh (exportCustom allExportCols c) []).fresh
              (importFold today fresh (exportCustom allExportCols c) []).albums).1,
            (importFold today fresh (exportCustom allExportCols c) []).stat) := by
    unfold importGrid
    rw [show (exportCustom allExportCols c).isEmpty = false from rfl]
    simp only [hcols, colsAll, Option.isNone_some, Bool.or_self, Bool.false_eq_true,
      if_false]
  have hLines : ∀ a ∈ c, ∀ s ∈ a.songs, ∀ l ∈ s.lyrics, wfLine l := by
    intro a ha s hs l hl
    exact ((hwfA a ha).2.2.2.2.1 s hs).2.2.2.2.1 l hl
  unfold importAlbums
  rw [hgrid]
  show some (eraseIds
      (commitAlbums (importFold today fresh (exportCustom allExportCols c) []).fresh
        (importFold today fresh (exportCustom allExportCols c) []).albums).1)
    = some (c.map (roundAlbum today))
  rw [hfoldA]
  unfold eraseIds
  rw [commitAlbums_albumsOutB today c fresh
    (importFold today fresh (exportCustom allExportCols c) []).fresh hLines]

set_option synthInstance.maxSize 2000 in
set_option maxHeartbeats 1000000 in
theorem export_import_roundtrip_witness :
    (importAlbums "2026/1/1" 1 (exportCustom allExportCols rtDemoCatalog) []).map eraseIds
      = some (rtDemoCatalog.map (roundAlbum "2026/1/1")) :=
  export_import_roundtrip "2026/1/1" 1 rtDemoCatalog (by
    unfold wfCatalog wfAlbum wfSong wfLine wfVocab wfGrammar trimStable
    decide)

end Day6
